import Mathlib

/-!
Verification of the third-person character controller repository
(fixed-timestep physics stepper, contact sensors, capsule resize,
locomotion state machine, footstep trigger).

The embedding is a shallow model over ℚ of the TypeScript/JavaScript
sources:
  * `src/physics/PhysicsManager.ts`  — fixed-timestep stepper
  * `src/input/KeyboardManager.ts`   — `CharacterController`

Conventions used throughout:
  * machine `number` arithmetic is modelled over ℚ (the claims under
    study are control-flow and exact-dataflow claims, not claims about
    floating-point rounding);
  * transcendental primitives (`Math.sin`, `Math.cos`, `Math.atan2`,
    `Math.sqrt`, `THREE.MathUtils.degToRad(0.5)`) are abstracted as a
    record of rational-valued operations (`MathOps`) threaded through
    the model — every theorem below is proved for an arbitrary such
    record, and concrete witnesses instantiate a trivial one;
  * external raycast results are frame inputs (an `Env` record);
  * `setTimeout` callbacks are modelled as named state-transition
    functions together with the list of callbacks scheduled by a call;
  * render-only effects (animation mixer playback, camera pose,
    container interpolation, particle visuals) are outside the modelled
    state.
-/

/-! ## Fixed-timestep physics stepper (`src/physics/PhysicsManager.ts`) -/

namespace PhysicsManager

/-- `fixedTimeStep = 1 / 60` — 60 Hz physics (PhysicsManager.ts line 7). -/
def fixedTimeStep : ℚ := 1 / 60

/-- The `while (accumulator >= fixedTimeStep)` loop of
`PhysicsManager.step` (lines 57–71).  Each iteration advances the world
one step (`world.step()` — counted in the second component), subtracts
`fixedTimeStep`, increments `steps`, and then — only after the step ran —
checks `steps > 10`; on that check it warns, zeroes the accumulator and
breaks.  Returns (accumulator, steps performed, warning emitted). -/
def stepLoop (accumulator : ℚ) (steps : ℕ) : ℚ × ℕ × Bool :=
  if h1 : fixedTimeStep ≤ accumulator then
    if h2 : steps + 1 > 10 then
      (0, steps + 1, true)
    else
      stepLoop (accumulator - fixedTimeStep) (steps + 1)
  else
    (accumulator, steps, false)
termination_by 11 - steps
decreasing_by omega

/-- Result of one `step(deltaTime)` call: returned interpolation alpha,
post-call accumulator, number of `world.step()` invocations, and whether
the step-limit diagnostic was emitted. -/
structure StepResult where
  alpha : ℚ
  accumulator : ℚ
  steps : ℕ
  warned : Bool
deriving DecidableEq, Repr

/-- `PhysicsManager.step` (lines 43–76).  `worldPresent` models
`this.world !== null`; `accumulator` is the pre-call value of
`this.accumulator`. -/
def step (worldPresent : Bool) (accumulator : ℚ) (deltaTime : ℚ) : StepResult :=
  if !worldPresent then
    { alpha := 0, accumulator := accumulator, steps := 0, warned := false }
  else
    let clampedDelta := min deltaTime (1 / 4)
    let r := stepLoop (accumulator + clampedDelta) 0
    { alpha := r.1 / fixedTimeStep, accumulator := r.1, steps := r.2.1, warned := r.2.2 }

lemma stepLoop_acc_bounds (accumulator : ℚ) (steps : ℕ) :
    0 ≤ accumulator →
      0 ≤ (stepLoop accumulator steps).1 ∧ (stepLoop accumulator steps).1 < fixedTimeStep := by
  induction accumulator, steps using stepLoop.induct with
  | case1 acc steps h1 h2 =>
    intro _
    rw [stepLoop]
    simp only [dif_pos h1, dif_pos h2]
    norm_num [fixedTimeStep]
  | case2 acc steps h1 h2 ih =>
    intro _
    rw [stepLoop]
    simp only [dif_pos h1, dif_neg h2]
    exact ih (by simp only [fixedTimeStep] at h1 ⊢; linarith)
  | case3 acc steps h1 =>
    intro h
    rw [stepLoop]
    simp only [dif_neg h1]
    exact ⟨h, by linarith [not_le.mp h1]⟩

lemma stepLoop_steps_le (accumulator : ℚ) (steps : ℕ) :
    steps ≤ 10 → (stepLoop accumulator steps).2.1 ≤ 11 := by
  induction accumulator, steps using stepLoop.induct with
  | case1 acc steps h1 h2 =>
    intro h
    rw [stepLoop]; simp only [dif_pos h1, dif_pos h2]; omega
  | case2 acc steps h1 h2 ih =>
    intro h
    rw [stepLoop]; simp only [dif_pos h1, dif_neg h2]; exact ih (by omega)
  | case3 acc steps h1 =>
    intro h
    rw [stepLoop]; simp only [dif_neg h1]; omega

lemma stepLoop_warned_iff (accumulator : ℚ) (steps : ℕ) :
    steps ≤ 10 →
      ((stepLoop accumulator steps).2.2 = true ↔ (stepLoop accumulator steps).2.1 = 11) := by
  induction accumulator, steps using stepLoop.induct with
  | case1 acc steps h1 h2 =>
    intro h
    rw [stepLoop]; simp only [dif_pos h1, dif_pos h2]; simp; omega
  | case2 acc steps h1 h2 ih =>
    intro h
    rw [stepLoop]; simp only [dif_pos h1, dif_neg h2]; exact ih (by omega)
  | case3 acc steps h1 =>
    intro h
    rw [stepLoop]; simp only [dif_neg h1]; simp; omega

lemma stepLoop_warned_acc (accumulator : ℚ) (steps : ℕ) :
    (stepLoop accumulator steps).2.2 = true → (stepLoop accumulator steps).1 = 0 := by
  induction accumulator, steps using stepLoop.induct with
  | case1 acc steps h1 h2 =>
    intro _
    rw [stepLoop]; simp only [dif_pos h1, dif_pos h2]
  | case2 acc steps h1 h2 ih =>
    intro h
    rw [stepLoop] at h ⊢
    simp only [dif_pos h1, dif_neg h2] at h ⊢
    exact ih h
  | case3 acc steps h1 =>
    intro h
    rw [stepLoop] at h
    simp only [dif_neg h1] at h
    exact absurd h (by simp)

end PhysicsManager

/-! ### C1 — step cap -/

/-- Concrete evaluation of the step loop at accumulator 0.25. -/
lemma stepLoop_quarter_eval :
    PhysicsManager.stepLoop (1 / 4 : ℚ) 0 = (0, 11, true) := by
  iterate 10
    rw [PhysicsManager.stepLoop,
      dif_pos (by norm_num [PhysicsManager.fixedTimeStep]), dif_neg (by norm_num)]
  rw [PhysicsManager.stepLoop,
    dif_pos (by norm_num [PhysicsManager.fixedTimeStep]), dif_pos (by norm_num)]

/-- C1 (counterexample): the claim says a single `step(deltaTime)` call with
an initialized world advances the physics world by at most 10 fixed steps.
In the source the `steps > 10` check runs only *after* a step has executed,
so a call can perform 11 steps: with an empty accumulator and
`deltaTime = 0.25` (the clamp bound, worth 15 fixed steps) exactly 11
`world.step()` calls happen before the cap triggers. -/
theorem physics_step_eleven_steps_counterexample :
    (PhysicsManager.step true 0 (1 / 4)).steps = 11 ∧
      ¬((PhysicsManager.step true 0 (1 / 4)).steps ≤ 10) := by
  have harg : (0 : ℚ) + min (1 / 4) (1 / 4) = 1 / 4 := by norm_num
  have h : (PhysicsManager.step true 0 (1 / 4)).steps = 11 := by
    unfold PhysicsManager.step
    simp only [Bool.not_true, Bool.false_eq_true, if_false, harg, stepLoop_quarter_eval]
  exact ⟨h, by omega⟩

/-- C1 (amended): for every call to `step(deltaTime)` with an initialized
world, the physics world is advanced by at most
11 fixed 1/60 s steps (the `steps > 10` check runs after the step, so the
11th step executes before the break); the cap is hit exactly when 11 steps
occur, and then the remaining accumulator is discarded (reset to 0) with a
diagnostic emitted. -/
theorem physics_step_cap (accumulator deltaTime : ℚ) :
    (PhysicsManager.step true accumulator deltaTime).steps ≤ 11 ∧
      ((PhysicsManager.step true accumulator deltaTime).warned = true ↔
        (PhysicsManager.step true accumulator deltaTime).steps = 11) ∧
      ((PhysicsManager.step true accumulator deltaTime).warned = true →
        (PhysicsManager.step true accumulator deltaTime).accumulator = 0) := by
  unfold PhysicsManager.step
  simp only [Bool.not_true, Bool.false_eq_true, if_false]
  refine ⟨?_, ?_, ?_⟩
  · exact PhysicsManager.stepLoop_steps_le _ 0 (by omega)
  · exact PhysicsManager.stepLoop_warned_iff _ 0 (by omega)
  · exact fun h => PhysicsManager.stepLoop_warned_acc _ 0 h

/-! ### C7 — interpolation alpha and accumulator bounds -/

/-- C7 (confirmed): for every call to `step(deltaTime)` from a state
satisfying the stepper invariant (accumulator in `[0, fixedTimeStep)`, which
holds initially and is re-established by every call) with a nonnegative
frame delta, the returned alpha lies in `[0, 1)` and the post-call
accumulator lies in `[0, fixedTimeStep)`, resetting to 0 when the step cap
was hit.  This covers the world-absent early return (alpha 0, accumulator
untouched) as well. -/
theorem physics_step_alpha_bounds (worldPresent : Bool) (accumulator deltaTime : ℚ)
    (hacc0 : 0 ≤ accumulator) (hacc1 : accumulator < PhysicsManager.fixedTimeStep)
    (hdt : 0 ≤ deltaTime) :
    0 ≤ (PhysicsManager.step worldPresent accumulator deltaTime).alpha ∧
      (PhysicsManager.step worldPresent accumulator deltaTime).alpha < 1 ∧
      0 ≤ (PhysicsManager.step worldPresent accumulator deltaTime).accumulator ∧
      (PhysicsManager.step worldPresent accumulator deltaTime).accumulator <
        PhysicsManager.fixedTimeStep ∧
      ((PhysicsManager.step worldPresent accumulator deltaTime).warned = true →
        (PhysicsManager.step worldPresent accumulator deltaTime).accumulator = 0) := by
  unfold PhysicsManager.step
  cases worldPresent with
  | false =>
    simp only [Bool.not_false, if_true]
    refine ⟨le_refl 0, by norm_num, hacc0, hacc1, ?_⟩
    intro h; exact absurd h (by simp)
  | true =>
    simp only [Bool.not_true, Bool.false_eq_true, if_false]
    have hmin : 0 ≤ min deltaTime (1 / 4 : ℚ) := le_min hdt (by norm_num)
    have hsum : 0 ≤ accumulator + min deltaTime (1 / 4 : ℚ) := by linarith
    obtain ⟨hlo, hhi⟩ := PhysicsManager.stepLoop_acc_bounds (accumulator + min deltaTime (1 / 4)) 0 hsum
    have hfs : (0 : ℚ) < PhysicsManager.fixedTimeStep := by norm_num [PhysicsManager.fixedTimeStep]
    refine ⟨div_nonneg hlo (le_of_lt hfs), ?_, hlo, hhi, ?_⟩
    · exact (div_lt_one hfs).mpr hhi
    · exact fun h => PhysicsManager.stepLoop_warned_acc _ 0 h

/-- Witness for `physics_step_alpha_bounds` at a concrete call. -/
theorem physics_step_alpha_bounds_witness :
    0 ≤ (PhysicsManager.step true (1 / 120) (1 / 50)).alpha ∧
      (PhysicsManager.step true (1 / 120) (1 / 50)).alpha < 1 ∧
      0 ≤ (PhysicsManager.step true (1 / 120) (1 / 50)).accumulator ∧
      (PhysicsManager.step true (1 / 120) (1 / 50)).accumulator <
        PhysicsManager.fixedTimeStep ∧
      ((PhysicsManager.step true (1 / 120) (1 / 50)).warned = true →
        (PhysicsManager.step true (1 / 120) (1 / 50)).accumulator = 0) :=
  physics_step_alpha_bounds true (1 / 120) (1 / 50) (by norm_num)
    (by norm_num [PhysicsManager.fixedTimeStep]) (by norm_num)

/-! ## Character controller (`src/input/KeyboardManager.ts`, `CharacterController`) -/

namespace CharacterController

/-- A 3-component vector of rationals (models THREE.Vector3 / Rapier vectors). -/
structure Vec3 where
  x : ℚ
  y : ℚ
  z : ℚ
deriving DecidableEq, Repr

/-- `config.WALK_SPEED = 1.8` (line 107). -/
def WALK_SPEED : ℚ := 9 / 5
/-- `config.RUN_SPEED = 4` (line 108). -/
def RUN_SPEED : ℚ := 4
/-- `config.JUMP_FORCE = 6` (line 110). -/
def JUMP_FORCE : ℚ := 6
/-- `config.capsuleHeight = 1.4` (line 117). -/
def capsuleHeight : ℚ := 7 / 5
/-- `config.capsuleRadius = 0.3` (line 118). -/
def capsuleRadius : ℚ := 3 / 10

/-- Abstraction of the transcendental / irrational math primitives used by
the controller (`Math.sin`, `Math.cos`, `Math.atan2`, `Math.sqrt`, and the
irrational constant `config.ROTATION_SPEED = THREE.MathUtils.degToRad(0.5)`).
These have no exact rational embedding; every theorem below holds for an
arbitrary `MathOps`, which captures exactly the data flow of the source. -/
structure MathOps where
  sin : ℚ → ℚ
  cos : ℚ → ℚ
  atan2 : ℚ → ℚ → ℚ
  sqrt : ℚ → ℚ
  rotationSpeed : ℚ

/-- A trivial `MathOps` instance used by concrete witnesses. -/
def demoOps : MathOps :=
  { sin := fun _ => 0
    cos := fun _ => 1
    atan2 := fun _ _ => 0
    sqrt := fun _ => 0
    rotationSpeed := 1 / 360 }

/-- `Math.max` on rationals (spelled out so that concrete states evaluate
by kernel reduction). -/
def mathMax (a b : ℚ) : ℚ := if a ≤ b then b else a

/-- `Math.min` on rationals. -/
def mathMin (a b : ℚ) : ℚ := if a ≤ b then a else b

/-- `Math.abs` on rationals. -/
def mathAbs (a : ℚ) : ℚ := if a < 0 then -a else a

lemma mathMax_eq_max (a b : ℚ) : mathMax a b = max a b := by
  unfold mathMax
  rcases le_total a b with h | h
  · simp [h, max_eq_right h]
  · rcases eq_or_lt_of_le h with h2 | h2
    · simp [h2]
    · rw [if_neg (by linarith), max_eq_left h]

lemma mathMin_eq_min (a b : ℚ) : mathMin a b = min a b := by
  unfold mathMin
  rcases le_total a b with h | h
  · simp [h, min_eq_left h]
  · rcases eq_or_lt_of_le h with h2 | h2
    · simp [h2]
    · rw [if_neg (by linarith), min_eq_right h]

lemma mathAbs_eq_abs (a : ℚ) : mathAbs a = |a| := by
  unfold mathAbs
  rcases lt_or_le a 0 with h | h
  · rw [if_pos h, abs_of_neg h]
  · rw [if_neg (not_lt.mpr h), abs_of_nonneg h]

/-- The result object of `world.castRay`: the time-of-impact as reported
under `hit.toi ?? hit.timeOfImpact ?? hit.time_of_impact`; `none` models
the case where none of the candidate fields is a number. -/
structure RawRayHit where
  toiField : Option ℚ
deriving DecidableEq, Repr

/-- The result object of `world.castRayAndGetNormal` for the foot ray:
coalesced time-of-impact plus coalesced normal
(`hit.normal ?? hit.normal1 ?? hit.normal2 ?? null`). -/
structure FootRawHit where
  toiField : Option ℚ
  normalField : Option Vec3
deriving DecidableEq, Repr

/-- `checkGroundedRapier` (lines 675–709), given the outcome of the
downward capsule-bottom raycast (length 0.2): grounded iff a hit's
time-of-impact is a number and `≤ rayLength`. -/
def checkGroundedRapier (hit : Option RawRayHit) : Bool :=
  match hit with
  | some h =>
    match h.toiField with
    | some hitToi => decide (hitToi ≤ 1 / 5)
    | none => false
  | none => false

/-- `checkCeilingClearance` (lines 711–740), given the outcome of the
upward raycast: clear iff no hit (`return !hit`). -/
def checkCeilingClearance (hit : Option RawRayHit) : Bool :=
  match hit with
  | some _ => false
  | none => true

/-- Processed foot-ray result (the record returned by `castFootRay`). -/
structure FootHit where
  hitToi : ℚ
  slopeFactor : ℚ
  point : Vec3
  normal : Vec3
deriving DecidableEq, Repr

/-- `castFootRay` (lines 742–799): ray origin at bone position + 0.05 up,
direction (0,−1,0), length 0.35; on a numeric time-of-impact within the
length, returns contact point, normal (defaulting to (0,1,0)) and
`slopeFactor = 1 − clamp(normal.y, 0, 1)`. -/
def castFootRay (pos : Vec3) (raw : Option FootRawHit) : Option FootHit :=
  let rayOrigin : Vec3 := ⟨pos.x, pos.y + 1 / 20, pos.z⟩
  match raw with
  | none => none
  | some h =>
    match h.toiField with
    | none => none
    | some hitToi =>
      if hitToi ≤ 7 / 20 then
        let point : Vec3 :=
          ⟨rayOrigin.x + 0 * hitToi, rayOrigin.y + (-1) * hitToi, rayOrigin.z + 0 * hitToi⟩
        let normal : Vec3 :=
          match h.normalField with
          | some n => n
          | none => ⟨0, 1, 0⟩
        let slopeFactor := 1 - mathMax 0 (mathMin 1 normal.y)
        some ⟨hitToi, slopeFactor, point, normal⟩
      else none

/-! Exception behaviour of the three raycast queries (claim C8).  The
external `castRay` outcome is modelled as an `Except`: `Except.error`
models the raycast throwing.  `checkGroundedRapier` (lines 675–709) and
`checkCeilingClearance` (lines 711–740) contain no `try`/`catch`, so an
exception propagates to the caller; `castFootRay` (lines 754–798) wraps
its raycast in `try { ... } catch (error) { console.warn(...); return
null; }`, so an exception yields `null`. -/

/-- `checkGroundedRapier` with a throwing raycast: no `try`/`catch` in the
source, so the error propagates. -/
def checkGroundedRapierX (res : Except String (Option RawRayHit)) : Except String Bool :=
  match res with
  | Except.error e => Except.error e
  | Except.ok hit => Except.ok (checkGroundedRapier hit)

/-- `checkCeilingClearance` with a throwing raycast: no `try`/`catch` in
the source, so the error propagates. -/
def checkCeilingClearanceX (res : Except String (Option RawRayHit)) : Except String Bool :=
  match res with
  | Except.error e => Except.error e
  | Except.ok hit => Except.ok (checkCeilingClearance hit)

/-- `castFootRay` with a throwing raycast: the source catches the
exception and returns `null`. -/
def castFootRayX (pos : Vec3) (res : Except String (Option FootRawHit)) :
    Except String (Option FootHit) :=
  match res with
  | Except.error _ => Except.ok none
  | Except.ok raw => Except.ok (castFootRay pos raw)

end CharacterController

/-! ### C8 — exception handling of the three raycast queries -/

open CharacterController in
/-- C8 (counterexample): the claim says all three raycast queries catch
raycast exceptions and fail open.  In the source only `castFootRay` has a
`try`/`catch`; `checkGroundedRapier` (and likewise
`checkCeilingClearance`) lets the exception propagate, so on a throwing
raycast it does not return the fail-open default `false`. -/
theorem raycast_catch_counterexample :
    ¬(∀ e : String,
        checkGroundedRapierX (Except.error e) = Except.ok false ∧
        checkCeilingClearanceX (Except.error e) = Except.ok true ∧
        ∀ p : Vec3, castFootRayX p (Except.error e) = Except.ok none) := by
  intro h
  obtain ⟨h1, -, -⟩ := h ("raycast failure")
  exact absurd h1 (by simp [checkGroundedRapierX])

open CharacterController in
/-- C8 (amended): only the foot ray catches raycast exceptions (treating
them as "no hit", returning `null`); the grounded check and the
ceiling-clearance check have no `try`/`catch` and propagate the exception
to the caller. -/
theorem raycast_catch_amended (e : String) (p : Vec3) :
    castFootRayX p (Except.error e) = Except.ok none ∧
    checkGroundedRapierX (Except.error e) = Except.error e ∧
    checkCeilingClearanceX (Except.error e) = Except.error e := by
  refine ⟨rfl, rfl, rfl⟩

/-! ## Controller state, capsule resize, crouch decision -/

namespace CharacterController

/-- `jumpPhase` values: `'none' | 'start' | 'loop' | 'land'` (line 168). -/
inductive JumpPhase where
  | none
  | start
  | loop
  | land
deriving DecidableEq, Repr

/-- The claim-relevant mutable state of a `CharacterController` with a live
rigid body.  `vel` is the rigid body's linear velocity (`linvel`) and
`translation` its translation; the remaining fields are the controller's own
fields of the same names (constructor, lines 126–222).  Render-only state
(animation mixer, camera pose, interpolation buffer, particle pool) is not
modelled. -/
structure CState where
  vel : Vec3
  translation : Vec3
  currentCapsuleHalfHeight : ℚ
  currentCharacterYOffset : ℚ
  isGrounded : Bool
  wasGrounded : Bool
  jumpPhase : JumpPhase
  combatMode : Bool
  isAttacking : Bool
  isRolling : Bool
  isCrouching : Bool
  crouchTransitioning : Bool
  ceilingClearanceTimer : ℚ
  rollDirection : Option ℚ
  rollSpeed : Option ℚ
  characterRotationTarget : ℚ
  rotationTarget : ℚ
  jumpPressed : Bool
  rollPressed : Bool
  animationChangeCooldown : ℚ
  footstepCooldown : ℚ
  currentAnimation : String
  leftFootInitialized : Bool
  rightFootInitialized : Bool
  prevLeftFootPosition : Vec3
  prevRightFootPosition : Vec3
  leftFootWasGrounded : Bool
  rightFootWasGrounded : Bool
  leftFootPrevToi : ℚ
  rightFootPrevToi : ℚ
deriving DecidableEq, Repr

/-- `updateCapsuleCollider(targetHalfHeight)` (lines 617–673), under a live
rigid body / world / collider (the early-return guard of line 618 is the
"initialized" precondition of the claims).  No-op when the height change is
below the 0.01 threshold; otherwise the collider is recreated at the target
half-height (collider identity is not part of the modelled state), the body
is translated down by `heightDiff = current − target`, and the visual
offset moves up by the same `heightDiff`. -/
def updateCapsuleCollider (s : CState) (targetHalfHeight : ℚ) : CState :=
  let currentHalfHeight := s.currentCapsuleHalfHeight
  if mathAbs (currentHalfHeight - targetHalfHeight) < 1 / 100 then s
  else
    let heightDiff := currentHalfHeight - targetHalfHeight
    { s with
      currentCapsuleHalfHeight := targetHalfHeight
      translation := ⟨s.translation.x, s.translation.y - heightDiff, s.translation.z⟩
      currentCharacterYOffset := s.currentCharacterYOffset + heightDiff }

/-- World-space Y of the capsule's bottom point:
`translation.y − halfHeight − radius`. -/
def bottomY (s : CState) : ℚ :=
  s.translation.y - s.currentCapsuleHalfHeight - capsuleRadius

/-- The crouch decision of `update` (lines 1069–1102): ceiling clearance is
queried only while crouching (`this.isCrouching ? this.checkCeilingClearance()
: true`); the clearance timer is updated by the first conditional chain and
`shouldBeCrouched` computed by the second.  Returns (new
`ceilingClearanceTimer`, `shouldBeCrouched`). -/
def crouchLogic (isCrouching : Bool) (ceilingClearanceTimer : ℚ) (keysCrouch : Bool)
    (ceilingRay : Option RawRayHit) (delta : ℚ) : ℚ × Bool :=
  let hasCeilingClearance : Bool :=
    if isCrouching then checkCeilingClearance ceilingRay else true
  let t1 : ℚ :=
    if keysCrouch then -1
    else if ¬hasCeilingClearance ∧ isCrouching then 0
    else if hasCeilingClearance ∧ isCrouching ∧ ceilingClearanceTimer ≥ 0 then
      ceilingClearanceTimer + delta
    else if ¬isCrouching then -1
    else ceilingClearanceTimer
  if keysCrouch then (-1, true)
  else if ¬hasCeilingClearance then (t1, true)
  else if t1 ≥ 0 ∧ t1 < 1 / 2 then (t1, true)
  else (t1, false)

/-- A baseline controller state: standing, grounded, idle, at rest
(matching the constructor defaults of lines 126–222 with a live body at
translation (0, 1, 0)). -/
def baseState : CState :=
  { vel := ⟨0, 0, 0⟩
    translation := ⟨0, 1, 0⟩
    currentCapsuleHalfHeight := capsuleHeight / 2
    currentCharacterYOffset := -(99 / 100)
    isGrounded := true
    wasGrounded := true
    jumpPhase := JumpPhase.none
    combatMode := false
    isAttacking := false
    isRolling := false
    isCrouching := false
    crouchTransitioning := false
    ceilingClearanceTimer := -1
    rollDirection := none
    rollSpeed := none
    characterRotationTarget := 0
    rotationTarget := 0
    jumpPressed := false
    rollPressed := false
    animationChangeCooldown := 0
    footstepCooldown := 0
    currentAnimation := "idle"
    leftFootInitialized := false
    rightFootInitialized := false
    prevLeftFootPosition := ⟨0, 0, 0⟩
    prevRightFootPosition := ⟨0, 0, 0⟩
    leftFootWasGrounded := false
    rightFootWasGrounded := false
    leftFootPrevToi := 1
    rightFootPrevToi := 1 }

end CharacterController

/-! ### C2 — capsule resize preserves the capsule bottom -/

open CharacterController in
/-- C2 (confirmed): `updateCapsuleCollider(target)` is a no-op when
`|current − target| < 0.01`; otherwise the world-space Y of the capsule's
bottom point (`translation.y − halfHeight − radius`) is unchanged, and the
visual model's local Y offset shifts by exactly the opposite of the rigid
body's translation shift. -/
theorem capsule_resize_bottom_preserved (s : CState) (targetHalfHeight : ℚ) :
    (abs (s.currentCapsuleHalfHeight - targetHalfHeight) < 1 / 100 →
      updateCapsuleCollider s targetHalfHeight = s) ∧
    (¬(abs (s.currentCapsuleHalfHeight - targetHalfHeight) < 1 / 100) →
      bottomY (updateCapsuleCollider s targetHalfHeight) = bottomY s ∧
      (updateCapsuleCollider s targetHalfHeight).currentCharacterYOffset -
          s.currentCharacterYOffset =
        -((updateCapsuleCollider s targetHalfHeight).translation.y - s.translation.y)) := by
  constructor
  · intro h
    simp only [updateCapsuleCollider, mathAbs_eq_abs]
    rw [if_pos h]
  · intro h
    simp only [updateCapsuleCollider, mathAbs_eq_abs, if_neg h, bottomY]
    constructor <;> ring

open CharacterController in
/-- Witness for `capsule_resize_bottom_preserved`: the no-op case at the
standing half-height itself, and the shrink to the crouch half-height
(0.7 → 0.35). -/
theorem capsule_resize_bottom_preserved_witness :
    updateCapsuleCollider baseState (capsuleHeight / 2) = baseState ∧
    bottomY (updateCapsuleCollider baseState ((capsuleHeight * (1 / 2)) / 2)) =
      bottomY baseState := by
  constructor
  · apply (capsule_resize_bottom_preserved baseState (capsuleHeight / 2)).1
    have h : baseState.currentCapsuleHalfHeight - capsuleHeight / 2 = 0 := by
      norm_num [baseState, capsuleHeight]
    rw [h, abs_zero]
    norm_num
  · apply ((capsule_resize_bottom_preserved baseState ((capsuleHeight * (1 / 2)) / 2)).2 ?_).1
    have h : baseState.currentCapsuleHalfHeight - (capsuleHeight * (1 / 2)) / 2 = 7 / 20 := by
      norm_num [baseState, capsuleHeight]
    rw [h, abs_of_nonneg (by norm_num)]
    norm_num

/-! ### C3 — crouch entry and exit policy -/

open CharacterController in
/-- C3 (counterexample): the claim says a standing (not crouching)
character with no crouch key held whose ceiling-clearance raycast reports
blocked gets `shouldBeCrouched = true`.  In the source the clearance check
is only consulted while already crouching
(`this.isCrouching ? this.checkCeilingClearance() : true`), so for a
standing character with a blocked upward raycast (`some` hit) and no key,
`shouldBeCrouched` is `false`. -/
theorem crouch_standing_blocked_counterexample :
    (crouchLogic false (-1) false (some ⟨some (1 / 10)⟩) (1 / 60)).2 = false := by
  decide

open CharacterController in
/-- C3 (amended): the ceiling-clearance check is consulted only while
crouching; a standing character with no crouch key held never gets
`shouldBeCrouched = true`, whatever the clearance raycast reports.  For an
already-crouching character with no key: a blocked check keeps it crouched
(resetting the clearance timer to 0), and once the check reports clear the
character remains crouched exactly while the accumulated clear time stays
below `standUpDelay = 0.5 s` (the timer advances by `delta` each clear
frame before the decision). -/
theorem crouch_policy_amended :
    (∀ timer delta : ℚ, ∀ ray : Option RawRayHit,
        (crouchLogic false timer false ray delta).2 = false) ∧
    (∀ timer delta : ℚ, ∀ h : RawRayHit,
        crouchLogic true timer false (some h) delta = (0, true)) ∧
    (∀ timer delta : ℚ, 0 ≤ timer → 0 ≤ delta →
        (crouchLogic true timer false none delta).1 = timer + delta ∧
        ((crouchLogic true timer false none delta).2 = true ↔ timer + delta < 1 / 2)) := by
  refine ⟨?_, ?_, ?_⟩
  · intro timer delta ray
    simp [crouchLogic]
    norm_num
  · intro timer delta h
    simp [crouchLogic, checkCeilingClearance]
  · intro timer delta ht hd
    have hcc : checkCeilingClearance (none : Option RawRayHit) = true := rfl
    simp only [crouchLogic, hcc]
    have ht2 : 0 ≤ timer + delta := by linarith
    simp [ht, ht2]
    constructor
    · split_ifs <;> rfl
    · split_ifs with h3 <;> simp [h3]

open CharacterController in
/-- Witness for `crouch_policy_amended` at concrete inputs: standing with a
blocked ray stays uncrouched; crouching under a blocked ray stays crouched
with timer 0; crouching in the clear with timer 0 accumulates the frame
delta and stays crouched while under 0.5 s. -/
theorem crouch_policy_amended_witness :
    (crouchLogic false (-1) false (some ⟨some (1 / 10)⟩) (1 / 60)).2 = false ∧
    crouchLogic true (-1) false (some ⟨some (1 / 10)⟩) (1 / 60) = (0, true) ∧
    (crouchLogic true 0 false none (1 / 60)).1 = 0 + 1 / 60 ∧
    ((crouchLogic true 0 false none (1 / 60)).2 = true ↔ (0 : ℚ) + 1 / 60 < 1 / 2) :=
  ⟨crouch_policy_amended.1 (-1) (1 / 60) (some ⟨some (1 / 10)⟩),
    crouch_policy_amended.2.1 (-1) (1 / 60) ⟨some (1 / 10)⟩,
    (crouch_policy_amended.2.2 0 (1 / 60) (by norm_num) (by norm_num)).1,
    (crouch_policy_amended.2.2 0 (1 / 60) (by norm_num) (by norm_num)).2⟩

/-! ## Foot-contact effect trigger (`updateFootsteps`, lines 828–1000) -/

namespace CharacterController

/-- Result of processing one foot for one frame (the per-foot body of
`updateFootsteps`, lines 863–911 for the left foot and 923–971 for the
right foot). -/
structure FootResult where
  triggered : Bool
  hit : Option FootHit
  cooldown : ℚ
  wasGroundedNow : Bool
  prevToi : ℚ
deriving DecidableEq, Repr

/-- One foot, one frame (after the lazy first-frame initialization):
computes the motion heuristics from the previous/current bone world
positions, casts the foot ray, derives the slope-adjusted grounded flag
(threshold 0.28 if `slopeFactor > 0.4`, else 0.23, strict `<`), and fires
a footstep only on the not-grounded → grounded transition with the global
cooldown `≤ 0` and at least one motion heuristic satisfied.  On firing,
the cooldown is set immediately to `finalCooldown` (lines 901–905).
`Math.sqrt` is `ops.sqrt`; `Math.pow(x, 2)` is `x ^ 2`. -/
def footFrame (ops : MathOps) (prevPos pos : Vec3) (wasGrounded : Bool)
    (footstepCooldown finalCooldown delta : ℚ) (raw : Option FootRawHit) : FootResult :=
  let verticalVelocity := (pos.y - prevPos.y) / mathMax delta (1 / 10000)
  let verticalDelta := prevPos.y - pos.y
  let movementDelta := ops.sqrt ((pos.x - prevPos.x) ^ 2 + (pos.z - prevPos.z) ^ 2)
  let hit := castFootRay pos raw
  let hitToi : Option ℚ := Option.map FootHit.hitToi hit
  let slopeFactor : ℚ := (Option.map FootHit.slopeFactor hit).getD 0
  let groundedFoot : Bool :=
    match hitToi with
    | some t => decide (t < if slopeFactor > 2 / 5 then 7 / 25 else 23 / 100)
    | none => false
  let triggered : Bool :=
    groundedFoot && !wasGrounded && decide (footstepCooldown ≤ 0) &&
      (decide (verticalVelocity < -(1 / 50)) || decide (verticalDelta > 3 / 500) ||
        decide (slopeFactor > 7 / 20) || decide (movementDelta > 1 / 50))
  { triggered := triggered
    hit := if triggered then hit else none
    cooldown := if triggered then finalCooldown else footstepCooldown
    wasGroundedNow := groundedFoot
    prevToi :=
      match hitToi with
      | some t => if groundedFoot then t else 1
      | none => 1 }

end CharacterController

/-! ### C6 — footstep edge-triggering -/

open CharacterController in
/-- C6 (confirmed): a footstep fires only on a frame where the foot's
grounded flag transitions false → true — with "grounded" exactly "the foot
ray reports a hit whose time-of-impact is below 0.28 when
`slopeFactor > 0.4`, else below 0.23" — with the global cooldown
non-positive and at least one motion heuristic satisfied; it never fires
while the foot stays grounded across consecutive frames (so each
grounded-entry produces at most one event) and never while the cooldown is
positive. -/
theorem footstep_edge_trigger (ops : MathOps) (prevPos pos : Vec3) (wasGrounded : Bool)
    (footstepCooldown finalCooldown delta : ℚ) (raw : Option FootRawHit) :
    ((footFrame ops prevPos pos wasGrounded footstepCooldown finalCooldown delta raw).triggered
        = true →
      wasGrounded = false ∧
      (footFrame ops prevPos pos wasGrounded footstepCooldown finalCooldown delta
          raw).wasGroundedNow = true ∧
      footstepCooldown ≤ 0 ∧
      ((pos.y - prevPos.y) / mathMax delta (1 / 10000) < -(1 / 50) ∨
        prevPos.y - pos.y > 3 / 500 ∨
        (Option.map FootHit.slopeFactor (castFootRay pos raw)).getD 0 > 7 / 20 ∨
        ops.sqrt ((pos.x - prevPos.x) ^ 2 + (pos.z - prevPos.z) ^ 2) > 1 / 50)) ∧
    ((footFrame ops prevPos pos wasGrounded footstepCooldown finalCooldown delta
        raw).wasGroundedNow = true ↔
      ∃ h : FootHit, castFootRay pos raw = some h ∧
        h.hitToi < (if h.slopeFactor > 2 / 5 then 7 / 25 else 23 / 100)) ∧
    (wasGrounded = true →
      (footFrame ops prevPos pos wasGrounded footstepCooldown finalCooldown delta
        raw).triggered = false) ∧
    (0 < footstepCooldown →
      (footFrame ops prevPos pos wasGrounded footstepCooldown finalCooldown delta
        raw).triggered = false) := by
  refine ⟨?_, ?_, ?_, ?_⟩
  · intro htrig
    simp only [footFrame, Bool.and_eq_true, Bool.or_eq_true, Bool.not_eq_eq_eq_not,
      Bool.not_true, decide_eq_true_eq] at htrig
    obtain ⟨⟨⟨hg, hw⟩, hcd⟩, hh⟩ := htrig
    refine ⟨hw, ?_, hcd, ?_⟩
    · simp only [footFrame]
      exact hg
    · rcases hh with ((h | h) | h) | h
      · exact Or.inl h
      · exact Or.inr (Or.inl h)
      · exact Or.inr (Or.inr (Or.inl h))
      · exact Or.inr (Or.inr (Or.inr h))
  · rcases raw with - | rh
    · simp [footFrame, castFootRay]
    · rcases rh with ⟨toiF, normalF⟩
      rcases toiF with - | t
      · simp [footFrame, castFootRay]
      · by_cases hle : t ≤ 7 / 20
        · simp [footFrame, castFootRay, hle]
        · simp [footFrame, castFootRay, hle]
  · intro hw
    simp [footFrame, hw]
  · intro hcd
    have hn : ¬(footstepCooldown ≤ 0) := by linarith
    simp [footFrame, hn]

open CharacterController in
/-- Witness for `footstep_edge_trigger` at concrete frames: a foot that
was grounded last frame never fires again while still grounded, and a
positive cooldown suppresses firing — both at a contact frame
(time-of-impact 0.1 on flat ground); and at the same frame with
`wasGrounded = false` and zero cooldown the trigger does fire, so the
edge-condition conclusions of the theorem hold there. -/
theorem footstep_edge_trigger_witness :
    (footFrame demoOps ⟨0, 1 / 2, 0⟩ ⟨0, 1 / 5, 0⟩ true 0 (1 / 4) (1 / 60)
        (some ⟨some (1 / 10), none⟩)).triggered = false ∧
    (footFrame demoOps ⟨0, 1 / 2, 0⟩ ⟨0, 1 / 5, 0⟩ false 1 (1 / 4) (1 / 60)
        (some ⟨some (1 / 10), none⟩)).triggered = false ∧
    (footFrame demoOps ⟨0, 1 / 2, 0⟩ ⟨0, 1 / 5, 0⟩ false 0 (1 / 4) (1 / 60)
        (some ⟨some (1 / 10), none⟩)).wasGroundedNow = true :=
  ⟨(footstep_edge_trigger demoOps ⟨0, 1 / 2, 0⟩ ⟨0, 1 / 5, 0⟩ true 0 (1 / 4) (1 / 60)
      (some ⟨some (1 / 10), none⟩)).2.2.1 rfl,
    (footstep_edge_trigger demoOps ⟨0, 1 / 2, 0⟩ ⟨0, 1 / 5, 0⟩ false 1 (1 / 4) (1 / 60)
      (some ⟨some (1 / 10), none⟩)).2.2.2 (by norm_num),
    ((footstep_edge_trigger demoOps ⟨0, 1 / 2, 0⟩ ⟨0, 1 / 5, 0⟩ false 0 (1 / 4) (1 / 60)
      (some ⟨some (1 / 10), none⟩)).1
      (by norm_num [footFrame, castFootRay, demoOps, mathMax, mathMin])).2.1⟩

/-! ## The per-frame locomotion update (`CharacterController.update`, lines 1023–1507)

The update is decomposed into named phases matching contiguous blocks of the
source; `update` chains them in source order.  Render-only effects (the
animation-group reset, mixer update, particle visuals, character-rotation
lerp, container interpolation and camera follow) are outside the modelled
state.  `setTimeout` callbacks are returned as a list of `Sched` tags whose
semantics are the `...Timeout` functions below. -/

namespace CharacterController

/-- The keyboard state consumed by `update` (`this.keys`, lines 193–204). -/
structure Keys where
  forward : Bool
  backward : Bool
  left : Bool
  right : Bool
  run : Bool
  jump : Bool
  crouch : Bool
  dance : Bool
  roll : Bool
  walkBackward : Bool
deriving DecidableEq, Repr

/-- A foot bone observed this frame: its world position and the raw result
of the foot raycast from that position. -/
structure FootObs where
  pos : Vec3
  ray : Option FootRawHit
deriving DecidableEq, Repr

/-- The per-frame external inputs of one `update` call: frame delta, key
state, and the outcomes of the raycasts the controller would issue
(`none` foot = bone missing). -/
structure Env where
  delta : ℚ
  keys : Keys
  groundedRay : Option RawRayHit
  ceilingRay : Option RawRayHit
  leftFoot : Option FootObs
  rightFoot : Option FootObs
deriving DecidableEq, Repr

/-- The deferred `setTimeout` callbacks scheduled inside `update`. -/
inductive Sched where
  | jumpStartRevert
  | jumpLandRevert
  | rollEnd
  | crouchUnlock
deriving DecidableEq, Repr

/-- The `setTimeout` delay of each scheduled callback, in milliseconds. -/
def schedDelayMs : Sched → ℕ
  | Sched.jumpStartRevert => 200
  | Sched.jumpLandRevert => 300
  | Sched.rollEnd => 800
  | Sched.crouchUnlock => 200

/-- `priorityAnimations` (line 546). -/
def priorityAnimations : List String := ["jumpStart", "jumpLoop", "jumpLand", "roll"]

/-- `footstepAnimations` (lines 227–232). -/
def footstepAnimations : List String := ["walk", "run", "walkBackwards", "crouchWalk"]

/-- `setAnimation(animName)` (lines 542–579), under the assumption that the
model loaded and every mapped clip exists (the `!nextAction` early return
of line 556 does not fire): no-op when already current; non-priority
changes are suppressed while the 100 ms cooldown is positive and re-arm it;
priority animations (jump/land/roll) bypass and do not touch the
cooldown. -/
def setAnimation (s : CState) (animName : String) : CState :=
  if s.currentAnimation = animName then s
  else
    let isPriority := priorityAnimations.contains animName
    if ¬isPriority ∧ s.animationChangeCooldown > 0 then s
    else
      { s with
        currentAnimation := animName
        animationChangeCooldown :=
          if ¬isPriority then 1 / 10 else s.animationChangeCooldown }

/-- `updateFootsteps(delta)` (lines 828–1000): gated on a movement
animation, grounded, no jump phase and not rolling; computes the
speed-adaptive cooldown, then processes the left foot and the right foot
in order (the right foot sees the cooldown already set by a left-foot
trigger).  Returns the new state and the per-foot triggering hits (sound
and particle spawning are fire-and-forget sinks). -/
def updateFootsteps (ops : MathOps) (s : CState) (leftFoot rightFoot : Option FootObs)
    (delta : ℚ) : CState × Option FootHit × Option FootHit :=
  if ¬footstepAnimations.contains s.currentAnimation ∨ ¬s.isGrounded ∨
      s.jumpPhase ≠ JumpPhase.none ∨ s.isRolling then
    (s, none, none)
  else
    let vel := s.vel
    let horizontalSpeed := ops.sqrt (vel.x * vel.x + vel.z * vel.z)
    let isRunning := horizontalSpeed > WALK_SPEED * (3 / 2)
    let baseCooldown : ℚ := if isRunning then 1 / 5 else 1 / 4
    let speedFactor := mathMin (horizontalSpeed / RUN_SPEED) (3 / 2)
    let adjustedCooldown := baseCooldown / mathMax speedFactor (1 / 2)
    let minCooldown : ℚ := if isRunning then 3 / 25 else 9 / 50
    let finalCooldown := mathMax adjustedCooldown minCooldown
    let left :=
      match leftFoot with
      | none => (s, (none : Option FootHit))
      | some obs =>
        if ¬s.leftFootInitialized then
          ({ s with prevLeftFootPosition := obs.pos, leftFootInitialized := true }, none)
        else
          let r := footFrame ops s.prevLeftFootPosition obs.pos s.leftFootWasGrounded
            s.footstepCooldown finalCooldown delta obs.ray
          ({ s with
              footstepCooldown := r.cooldown
              prevLeftFootPosition := obs.pos
              leftFootWasGrounded := r.wasGroundedNow
              leftFootPrevToi := r.prevToi }, r.hit)
    let s1 := left.1
    let right :=
      match rightFoot with
      | none => (s1, (none : Option FootHit))
      | some obs =>
        if ¬s1.rightFootInitialized then
          ({ s1 with prevRightFootPosition := obs.pos, rightFootInitialized := true }, none)
        else
          let r := footFrame ops s1.prevRightFootPosition obs.pos s1.rightFootWasGrounded
            s1.footstepCooldown finalCooldown delta obs.ray
          ({ s1 with
              footstepCooldown := r.cooldown
              prevRightFootPosition := obs.pos
              rightFootWasGrounded := r.wasGroundedNow
              rightFootPrevToi := r.prevToi }, r.hit)
    (right.1, left.2, right.2)

/-- The `grounded` value used by the frame (lines 1060–1064): the raycast
result, forced to `true` while `crouchTransitioning` masks resize noise. -/
def sensedGrounded (s : CState) (env : Env) : Bool :=
  if s.crouchTransitioning then true else checkGroundedRapier env.groundedRay

/-- The running per-frame data: controller state, the in-frame velocity
object (`const vel = this.rigidBody.linvel()`), and callbacks scheduled so
far. -/
structure Frame where
  s : CState
  vel : Vec3
  sched : List Sched
deriving DecidableEq, Repr

/-- Landing detection (lines 1104–1177): on a !wasGrounded → grounded
frame, enter the `land` phase, damp horizontal velocity to 20 %, play a
footstep (cooldown permitting) and schedule the 300 ms revert. -/
def landingPhase (grounded : Bool) (f : Frame) : Frame :=
  if ¬f.s.wasGrounded ∧ grounded then
    let s := setAnimation { f.s with jumpPhase := JumpPhase.land } ("jumpLand")
    let vel := { f.vel with x := f.vel.x * (1 / 5), z := f.vel.z * (1 / 5) }
    let s := if s.footstepCooldown ≤ 1 / 20 then { s with footstepCooldown := 1 / 4 } else s
    { s := s, vel := vel, sched := f.sched ++ [Sched.jumpLandRevert] }
  else f

/-- Roll trigger (lines 1179–1218): edge-triggered roll key while
grounded, not crouched/dancing/attacking/rolling — locks the roll
direction/speed, resizes the capsule to the rolling profile, overwrites
velocity with the roll vector and schedules the 800 ms end callback. -/
def rollPhase (ops : MathOps) (keys : Keys) (grounded shouldBeCrouched : Bool)
    (f : Frame) : Frame :=
  if keys.roll ∧ ¬f.s.rollPressed ∧ grounded ∧ ¬shouldBeCrouched ∧ ¬keys.dance ∧
      ¬f.s.isAttacking ∧ ¬f.s.isRolling then
    let s := { f.s with rollPressed := true, isRolling := true, jumpPhase := JumpPhase.none }
    let s := setAnimation s ("roll")
    let rollHalfHeight := capsuleRadius
    let s := updateCapsuleCollider s rollHalfHeight
    let rollSpeed := RUN_SPEED * (6 / 5)
    let facingRotation := s.rotationTarget + s.characterRotationTarget
    let s := { s with rollDirection := some facingRotation, rollSpeed := some rollSpeed }
    let vel := { f.vel with
      x := ops.sin facingRotation * rollSpeed
      z := ops.cos facingRotation * rollSpeed }
    { s := s, vel := vel, sched := f.sched ++ [Sched.rollEnd] }
  else if ¬keys.roll then { f with s := { f.s with rollPressed := false } }
  else f

/-- Falling detection (lines 1220–1230). -/
def fallingPhase (grounded shouldBeCrouched : Bool) (f : Frame) : Frame :=
  if ¬grounded ∧ f.s.jumpPhase = JumpPhase.none ∧ ¬shouldBeCrouched ∧
      ¬f.s.crouchTransitioning ∧ ¬f.s.isRolling then
    { f with s := setAnimation { f.s with jumpPhase := JumpPhase.loop } ("jumpLoop") }
  else f

/-- Crouch-profile switch (lines 1243–1265): on a change of
`shouldBeCrouched`, start the 200 ms crouch transition (clearing
`jumpPhase`), resize the capsule to the target profile, and commit the new
`isCrouching`. -/
def crouchSwitchPhase (shouldBeCrouched : Bool) (f : Frame) : Frame :=
  if shouldBeCrouched ≠ f.s.isCrouching then
    let s := { f.s with crouchTransitioning := true, jumpPhase := JumpPhase.none }
    let standingHalfHeight := capsuleHeight / 2
    let crouchHalfHeight := (capsuleHeight * (1 / 2)) / 2
    let s :=
      if shouldBeCrouched then updateCapsuleCollider s crouchHalfHeight
      else setAnimation (updateCapsuleCollider s standingHalfHeight) ("idle")
    { f with
      s := { s with isCrouching := shouldBeCrouched }
      sched := f.sched ++ [Sched.crouchUnlock] }
  else f

/-- `this.wasGrounded = grounded` (line 1232). -/
def wasGroundedPhase (grounded : Bool) (f : Frame) : Frame :=
  { f with s := { f.s with wasGrounded := grounded } }

/-- Dance (lines 1237–1241): plays the dance animation; the `movement`
zeroing it performs is overwritten by the key reads of lines 1268–1271,
so only the animation change is observable. -/
def dancePhase (keys : Keys) (f : Frame) : Frame :=
  if keys.dance then { f with s := setAnimation f.s ("dance") } else f

/-- The jump trigger, duplicated verbatim in the source for the
movement branch (lines 1310–1327: `withIntended = some (ix, iz)`, the
intended velocity is re-applied with the vertical impulse) and the idle
branch (lines 1361–1376: `withIntended = none`): edge-triggered
(`keys.jump && grounded && !jumpPressed`), sets `vel.y = JUMP_FORCE`,
enters `jumpPhase = start` and schedules the 200 ms revert; releasing the
key re-arms the edge. -/
def jumpTrigger (keys : Keys) (grounded : Bool) (s : CState) (vel : Vec3)
    (sched : List Sched) (withIntended : Option (ℚ × ℚ)) : CState × Vec3 × List Sched :=
  if keys.jump ∧ grounded ∧ ¬s.jumpPressed then
    let vel2 :=
      match withIntended with
      | some iv => { vel with y := JUMP_FORCE, x := iv.1, z := iv.2 }
      | none => { vel with y := JUMP_FORCE }
    (setAnimation { s with jumpPressed := true, jumpPhase := JumpPhase.start } ("jumpStart"),
      vel2, sched ++ [Sched.jumpStartRevert])
  else if ¬keys.jump then ({ s with jumpPressed := false }, vel, sched)
  else (s, vel, sched)

/-- Movement-branch animation selection (lines 1329–1349). -/
def movingAnims (keys : Keys) (grounded shouldBeCrouched walkBackwardMode : Bool)
    (speed : ℚ) (s : CState) : CState :=
  if grounded ∧ s.jumpPhase = JumpPhase.none ∧ ¬keys.dance ∧ ¬s.isAttacking ∧
      ¬s.isRolling then
    if shouldBeCrouched then setAnimation s ("crouchWalk")
    else if s.combatMode then setAnimation s ("swordIdle")
    else if speed = RUN_SPEED then setAnimation s ("run")
    else if walkBackwardMode then setAnimation s ("walkBackwards")
    else setAnimation s ("walk")
  else s

/-- Idle-branch animation selection (lines 1378–1394). -/
def idleAnims (keys : Keys) (grounded shouldBeCrouched : Bool) (s : CState) : CState :=
  if grounded ∧ s.jumpPhase = JumpPhase.none ∧ ¬keys.dance ∧ ¬s.isAttacking ∧
      ¬s.isRolling then
    if shouldBeCrouched then setAnimation s ("crouchIdle")
    else if s.combatMode then setAnimation s ("swordIdle")
    else setAnimation s ("idle")
  else s

/-- Idle damping (lines 1352–1358): while grounded and not rolling, decay
horizontal velocity by 0.85 per frame and snap below the 0.01 epsilon. -/
def idleDamp (grounded isRolling : Bool) (vel : Vec3) : Vec3 :=
  if grounded ∧ ¬isRolling then
    let vx := vel.x * (17 / 20)
    let vz := vel.z * (17 / 20)
    let vx := if mathAbs vx < 1 / 100 then 0 else vx
    let vz := if mathAbs vz < 1 / 100 then 0 else vz
    { vel with x := vx, z := vz }
  else vel

/-- The movement side of lines 1283–1349, taking the rotation-updated
state `s` and the shared `movX`/`movZ`/`speed`/`walkBackwardMode`. -/
def movementBranch (ops : MathOps) (keys : Keys) (grounded shouldBeCrouched wbm : Bool)
    (movX movZ speed : ℚ) (f : Frame) (s : CState) : Frame :=
  let baseMovementAngle := if wbm then ops.atan2 movX 1 else ops.atan2 movX movZ
  let movementRotation := s.rotationTarget + baseMovementAngle
  let intendedVelX0 := ops.sin movementRotation * speed
  let intendedVelZ0 := ops.cos movementRotation * speed
  let s : CState :=
    { s with characterRotationTarget :=
        if wbm then ops.atan2 movX 1 else ops.atan2 movX movZ }
  let intendedVelX : ℚ := if wbm ∧ movZ < 0 then -intendedVelX0 else intendedVelX0
  let intendedVelZ : ℚ := if wbm ∧ movZ < 0 then -intendedVelZ0 else intendedVelZ0
  let vel : Vec3 :=
    if grounded ∧ s.jumpPhase ≠ JumpPhase.land ∧ ¬s.isRolling then
      { f.vel with x := intendedVelX, z := intendedVelZ }
    else f.vel
  let jump := jumpTrigger keys grounded s vel f.sched (some (intendedVelX, intendedVelZ))
  let s2 := movingAnims keys grounded shouldBeCrouched wbm speed jump.1
  { s := s2, vel := jump.2.1, sched := jump.2.2 }

/-- The no-movement side of lines 1350–1395. -/
def idleBranch (keys : Keys) (grounded shouldBeCrouched : Bool) (f : Frame)
    (s : CState) : Frame :=
  let vel := idleDamp grounded s.isRolling f.vel
  let jump := jumpTrigger keys grounded s vel f.sched none
  let s2 := idleAnims keys grounded shouldBeCrouched jump.1
  { s := s2, vel := jump.2.1, sched := jump.2.2 }

/-- Directional input, target velocity, jump trigger and grounded
animation selection (lines 1267–1395).  `movement.walkBackwardMode` is
initialized `false` and never set inside `update`, so it is the constant
`false` here (its branches are preserved verbatim). -/
def movementPhase (ops : MathOps) (keys : Keys) (grounded shouldBeCrouched : Bool)
    (f : Frame) : Frame :=
  let movX : ℚ := if keys.right then -1 else if keys.left then 1 else 0
  let movZ : ℚ := if keys.backward then -1 else if keys.forward then 1 else 0
  let walkBackwardMode : Bool := false
  let s :=
    if movX ≠ 0 then
      { f.s with rotationTarget := f.s.rotationTarget + ops.rotationSpeed * movX }
    else f.s
  let speed0 : ℚ := if keys.run then RUN_SPEED else WALK_SPEED
  let speed : ℚ := if shouldBeCrouched then WALK_SPEED * (1 / 2) else speed0
  if movX ≠ 0 ∨ movZ ≠ 0 then
    movementBranch ops keys grounded shouldBeCrouched walkBackwardMode movX movZ speed f s
  else
    idleBranch keys grounded shouldBeCrouched f s

/-- Roll velocity maintenance (lines 1411–1424): while rolling *and
grounded*, with a locked roll direction/speed, force-overwrite the
horizontal velocity with the roll vector right before `setLinvel`. -/
def rollOverridePhase (ops : MathOps) (grounded : Bool) (f : Frame) : Frame :=
  if f.s.isRolling ∧ grounded ∧ f.s.rollDirection.isSome ∧ f.s.rollSpeed.isSome then
    { f with vel := { f.vel with
        x := ops.sin (f.s.rollDirection.getD 0) * (f.s.rollSpeed.getD 0)
        z := ops.cos (f.s.rollDirection.getD 0) * (f.s.rollSpeed.getD 0) } }
  else f

/-- `update(delta, interpolationAlpha)` (lines 1023–1507) on a controller
with a live rigid body: cooldown bookkeeping, footstep processing, ground
sensing, crouch decision, then the source-ordered phases, finishing with
`setLinvel` (the final velocity is written into the state).  The result
carries the scheduled timeout callbacks. -/
def update (ops : MathOps) (s0 : CState) (env : Env) : Frame :=
  let s1 := { s0 with
    animationChangeCooldown := mathMax (s0.animationChangeCooldown - env.delta) 0
    footstepCooldown := mathMax (s0.footstepCooldown - env.delta) 0 }
  let ufs := updateFootsteps ops s1 env.leftFoot env.rightFoot env.delta
  let s2 := ufs.1
  let grounded := sensedGrounded s2 env
  let s3 := { s2 with isGrounded := grounded }
  let cr := crouchLogic s3.isCrouching s3.ceilingClearanceTimer env.keys.crouch
    env.ceilingRay env.delta
  let shouldBeCrouched := cr.2
  let s4 := { s3 with ceilingClearanceTimer := cr.1 }
  let f : Frame := { s := s4, vel := s4.vel, sched := [] }
  let f := landingPhase grounded f
  let f := rollPhase ops env.keys grounded shouldBeCrouched f
  let f := fallingPhase grounded shouldBeCrouched f
  let f := wasGroundedPhase grounded f
  let f := dancePhase env.keys f
  let f := crouchSwitchPhase shouldBeCrouched f
  let f := movementPhase ops env.keys grounded shouldBeCrouched f
  let f := rollOverridePhase ops grounded f
  { f with s := { f.s with vel := f.vel } }

/-- The 200 ms `setTimeout` scheduled by the jump trigger (lines 1319–1324
and 1368–1373): re-checks that `jumpPhase` is still `start` before
advancing to `loop`. -/
def jumpStartTimeout (s : CState) : CState :=
  if s.jumpPhase = JumpPhase.start then
    setAnimation { s with jumpPhase := JumpPhase.loop } ("jumpLoop")
  else s

/-- The 300 ms `setTimeout` scheduled by landing (lines 1172–1176):
re-checks that `jumpPhase` is still `land` before clearing it. -/
def jumpLandTimeout (s : CState) : CState :=
  if s.jumpPhase = JumpPhase.land then { s with jumpPhase := JumpPhase.none } else s

/-- The 800 ms `setTimeout` scheduled by the roll trigger (lines
1208–1215): performs *no* re-check — it unconditionally clears the rolling
state and resizes the capsule to the standing profile. -/
def rollEndTimeout (s : CState) : CState :=
  let s1 := { s with isRolling := false, rollDirection := none, rollSpeed := none }
  updateCapsuleCollider s1 (capsuleHeight / 2)

/-- The 200 ms `setTimeout` scheduled by the crouch switch (lines
1251–1253): unconditionally ends the crouch transition. -/
def crouchUnlockTimeout (s : CState) : CState := { s with crouchTransitioning := false }

/-- The state transition a scheduled callback performs when it fires. -/
def schedAction : Sched → CState → CState
  | Sched.jumpStartRevert => jumpStartTimeout
  | Sched.jumpLandRevert => jumpLandTimeout
  | Sched.rollEnd => rollEndTimeout
  | Sched.crouchUnlock => crouchUnlockTimeout

end CharacterController

/-! ## Field-preservation lemmas

`setAnimation` only writes `currentAnimation` and `animationChangeCooldown`;
`updateCapsuleCollider` only writes `currentCapsuleHalfHeight`,
`translation` and `currentCharacterYOffset`; `updateFootsteps` only writes
the per-foot tracking fields and `footstepCooldown`.  The lemmas below
record this (they let the phase proofs push projections through). -/

namespace CharacterController

@[simp] lemma setAnimation_vel (s : CState) (n : String) :
    (setAnimation s n).vel = s.vel := by
  simp only [setAnimation]; split_ifs <;> rfl

@[simp] lemma setAnimation_translation (s : CState) (n : String) :
    (setAnimation s n).translation = s.translation := by
  simp only [setAnimation]; split_ifs <;> rfl

@[simp] lemma setAnimation_currentCapsuleHalfHeight (s : CState) (n : String) :
    (setAnimation s n).currentCapsuleHalfHeight = s.currentCapsuleHalfHeight := by
  simp only [setAnimation]; split_ifs <;> rfl

@[simp] lemma setAnimation_currentCharacterYOffset (s : CState) (n : String) :
    (setAnimation s n).currentCharacterYOffset = s.currentCharacterYOffset := by
  simp only [setAnimation]; split_ifs <;> rfl

@[simp] lemma setAnimation_isGrounded (s : CState) (n : String) :
    (setAnimation s n).isGrounded = s.isGrounded := by
  simp only [setAnimation]; split_ifs <;> rfl

@[simp] lemma setAnimation_wasGrounded (s : CState) (n : String) :
    (setAnimation s n).wasGrounded = s.wasGrounded := by
  simp only [setAnimation]; split_ifs <;> rfl

@[simp] lemma setAnimation_jumpPhase (s : CState) (n : String) :
    (setAnimation s n).jumpPhase = s.jumpPhase := by
  simp only [setAnimation]; split_ifs <;> rfl

@[simp] lemma setAnimation_combatMode (s : CState) (n : String) :
    (setAnimation s n).combatMode = s.combatMode := by
  simp only [setAnimation]; split_ifs <;> rfl

@[simp] lemma setAnimation_isAttacking (s : CState) (n : String) :
    (setAnimation s n).isAttacking = s.isAttacking := by
  simp only [setAnimation]; split_ifs <;> rfl

@[simp] lemma setAnimation_isRolling (s : CState) (n : String) :
    (setAnimation s n).isRolling = s.isRolling := by
  simp only [setAnimation]; split_ifs <;> rfl

@[simp] lemma setAnimation_isCrouching (s : CState) (n : String) :
    (setAnimation s n).isCrouching = s.isCrouching := by
  simp only [setAnimation]; split_ifs <;> rfl

@[simp] lemma setAnimation_crouchTransitioning (s : CState) (n : String) :
    (setAnimation s n).crouchTransitioning = s.crouchTransitioning := by
  simp only [setAnimation]; split_ifs <;> rfl

@[simp] lemma setAnimation_ceilingClearanceTimer (s : CState) (n : String) :
    (setAnimation s n).ceilingClearanceTimer = s.ceilingClearanceTimer := by
  simp only [setAnimation]; split_ifs <;> rfl

@[simp] lemma setAnimation_rollDirection (s : CState) (n : String) :
    (setAnimation s n).rollDirection = s.rollDirection := by
  simp only [setAnimation]; split_ifs <;> rfl

@[simp] lemma setAnimation_rollSpeed (s : CState) (n : String) :
    (setAnimation s n).rollSpeed = s.rollSpeed := by
  simp only [setAnimation]; split_ifs <;> rfl

@[simp] lemma setAnimation_characterRotationTarget (s : CState) (n : String) :
    (setAnimation s n).characterRotationTarget = s.characterRotationTarget := by
  simp only [setAnimation]; split_ifs <;> rfl

@[simp] lemma setAnimation_rotationTarget (s : CState) (n : String) :
    (setAnimation s n).rotationTarget = s.rotationTarget := by
  simp only [setAnimation]; split_ifs <;> rfl

@[simp] lemma setAnimation_jumpPressed (s : CState) (n : String) :
    (setAnimation s n).jumpPressed = s.jumpPressed := by
  simp only [setAnimation]; split_ifs <;> rfl

@[simp] lemma setAnimation_rollPressed (s : CState) (n : String) :
    (setAnimation s n).rollPressed = s.rollPressed := by
  simp only [setAnimation]; split_ifs <;> rfl

@[simp] lemma setAnimation_footstepCooldown (s : CState) (n : String) :
    (setAnimation s n).footstepCooldown = s.footstepCooldown := by
  simp only [setAnimation]; split_ifs <;> rfl

@[simp] lemma updateCapsuleCollider_vel (s : CState) (t : ℚ) :
    (updateCapsuleCollider s t).vel = s.vel := by
  simp only [updateCapsuleCollider]; split_ifs <;> rfl

@[simp] lemma updateCapsuleCollider_isGrounded (s : CState) (t : ℚ) :
    (updateCapsuleCollider s t).isGrounded = s.isGrounded := by
  simp only [updateCapsuleCollider]; split_ifs <;> rfl

@[simp] lemma updateCapsuleCollider_wasGrounded (s : CState) (t : ℚ) :
    (updateCapsuleCollider s t).wasGrounded = s.wasGrounded := by
  simp only [updateCapsuleCollider]; split_ifs <;> rfl

@[simp] lemma updateCapsuleCollider_jumpPhase (s : CState) (t : ℚ) :
    (updateCapsuleCollider s t).jumpPhase = s.jumpPhase := by
  simp only [updateCapsuleCollider]; split_ifs <;> rfl

@[simp] lemma updateCapsuleCollider_combatMode (s : CState) (t : ℚ) :
    (updateCapsuleCollider s t).combatMode = s.combatMode := by
  simp only [updateCapsuleCollider]; split_ifs <;> rfl

@[simp] lemma updateCapsuleCollider_isAttacking (s : CState) (t : ℚ) :
    (updateCapsuleCollider s t).isAttacking = s.isAttacking := by
  simp only [updateCapsuleCollider]; split_ifs <;> rfl

@[simp] lemma updateCapsuleCollider_isRolling (s : CState) (t : ℚ) :
    (updateCapsuleCollider s t).isRolling = s.isRolling := by
  simp only [updateCapsuleCollider]; split_ifs <;> rfl

@[simp] lemma updateCapsuleCollider_isCrouching (s : CState) (t : ℚ) :
    (updateCapsuleCollider s t).isCrouching = s.isCrouching := by
  simp only [updateCapsuleCollider]; split_ifs <;> rfl

@[simp] lemma updateCapsuleCollider_crouchTransitioning (s : CState) (t : ℚ) :
    (updateCapsuleCollider s t).crouchTransitioning = s.crouchTransitioning := by
  simp only [updateCapsuleCollider]; split_ifs <;> rfl

@[simp] lemma updateCapsuleCollider_ceilingClearanceTimer (s : CState) (t : ℚ) :
    (updateCapsuleCollider s t).ceilingClearanceTimer = s.ceilingClearanceTimer := by
  simp only [updateCapsuleCollider]; split_ifs <;> rfl

@[simp] lemma updateCapsuleCollider_rollDirection (s : CState) (t : ℚ) :
    (updateCapsuleCollider s t).rollDirection = s.rollDirection := by
  simp only [updateCapsuleCollider]; split_ifs <;> rfl

@[simp] lemma updateCapsuleCollider_rollSpeed (s : CState) (t : ℚ) :
    (updateCapsuleCollider s t).rollSpeed = s.rollSpeed := by
  simp only [updateCapsuleCollider]; split_ifs <;> rfl

@[simp] lemma updateCapsuleCollider_characterRotationTarget (s : CState) (t : ℚ) :
    (updateCapsuleCollider s t).characterRotationTarget = s.characterRotationTarget := by
  simp only [updateCapsuleCollider]; split_ifs <;> rfl

@[simp] lemma updateCapsuleCollider_rotationTarget (s : CState) (t : ℚ) :
    (updateCapsuleCollider s t).rotationTarget = s.rotationTarget := by
  simp only [updateCapsuleCollider]; split_ifs <;> rfl

@[simp] lemma updateCapsuleCollider_jumpPressed (s : CState) (t : ℚ) :
    (updateCapsuleCollider s t).jumpPressed = s.jumpPressed := by
  simp only [updateCapsuleCollider]; split_ifs <;> rfl

@[simp] lemma updateCapsuleCollider_rollPressed (s : CState) (t : ℚ) :
    (updateCapsuleCollider s t).rollPressed = s.rollPressed := by
  simp only [updateCapsuleCollider]; split_ifs <;> rfl

@[simp] lemma updateCapsuleCollider_footstepCooldown (s : CState) (t : ℚ) :
    (updateCapsuleCollider s t).footstepCooldown = s.footstepCooldown := by
  simp only [updateCapsuleCollider]; split_ifs <;> rfl

@[simp] lemma updateCapsuleCollider_currentAnimation (s : CState) (t : ℚ) :
    (updateCapsuleCollider s t).currentAnimation = s.currentAnimation := by
  simp only [updateCapsuleCollider]; split_ifs <;> rfl

@[simp] lemma updateCapsuleCollider_animationChangeCooldown (s : CState) (t : ℚ) :
    (updateCapsuleCollider s t).animationChangeCooldown = s.animationChangeCooldown := by
  simp only [updateCapsuleCollider]; split_ifs <;> rfl

@[simp] lemma updateFootsteps_vel (ops : MathOps) (s : CState)
    (lf rf : Option FootObs) (delta : ℚ) :
    (updateFootsteps ops s lf rf delta).1.vel = s.vel := by
  simp only [updateFootsteps]
  rcases lf with - | o1 <;> rcases rf with - | o2 <;> split_ifs <;> rfl

@[simp] lemma updateFootsteps_translation (ops : MathOps) (s : CState)
    (lf rf : Option FootObs) (delta : ℚ) :
    (updateFootsteps ops s lf rf delta).1.translation = s.translation := by
  simp only [updateFootsteps]
  rcases lf with - | o1 <;> rcases rf with - | o2 <;> split_ifs <;> rfl

@[simp] lemma updateFootsteps_currentCapsuleHalfHeight (ops : MathOps) (s : CState)
    (lf rf : Option FootObs) (delta : ℚ) :
    (updateFootsteps ops s lf rf delta).1.currentCapsuleHalfHeight = s.currentCapsuleHalfHeight := by
  simp only [updateFootsteps]
  rcases lf with - | o1 <;> rcases rf with - | o2 <;> split_ifs <;> rfl

@[simp] lemma updateFootsteps_currentCharacterYOffset (ops : MathOps) (s : CState)
    (lf rf : Option FootObs) (delta : ℚ) :
    (updateFootsteps ops s lf rf delta).1.currentCharacterYOffset = s.currentCharacterYOffset := by
  simp only [updateFootsteps]
  rcases lf with - | o1 <;> rcases rf with - | o2 <;> split_ifs <;> rfl

@[simp] lemma updateFootsteps_isGrounded (ops : MathOps) (s : CState)
    (lf rf : Option FootObs) (delta : ℚ) :
    (updateFootsteps ops s lf rf delta).1.isGrounded = s.isGrounded := by
  simp only [updateFootsteps]
  rcases lf with - | o1 <;> rcases rf with - | o2 <;> split_ifs <;> rfl

@[simp] lemma updateFootsteps_wasGrounded (ops : MathOps) (s : CState)
    (lf rf : Option FootObs) (delta : ℚ) :
    (updateFootsteps ops s lf rf delta).1.wasGrounded = s.wasGrounded := by
  simp only [updateFootsteps]
  rcases lf with - | o1 <;> rcases rf with - | o2 <;> split_ifs <;> rfl

@[simp] lemma updateFootsteps_jumpPhase (ops : MathOps) (s : CState)
    (lf rf : Option FootObs) (delta : ℚ) :
    (updateFootsteps ops s lf rf delta).1.jumpPhase = s.jumpPhase := by
  simp only [updateFootsteps]
  rcases lf with - | o1 <;> rcases rf with - | o2 <;> split_ifs <;> rfl

@[simp] lemma updateFootsteps_combatMode (ops : MathOps) (s : CState)
    (lf rf : Option FootObs) (delta : ℚ) :
    (updateFootsteps ops s lf rf delta).1.combatMode = s.combatMode := by
  simp only [updateFootsteps]
  rcases lf with - | o1 <;> rcases rf with - | o2 <;> split_ifs <;> rfl

@[simp] lemma updateFootsteps_isAttacking (ops : MathOps) (s : CState)
    (lf rf : Option FootObs) (delta : ℚ) :
    (updateFootsteps ops s lf rf delta).1.isAttacking = s.isAttacking := by
  simp only [updateFootsteps]
  rcases lf with - | o1 <;> rcases rf with - | o2 <;> split_ifs <;> rfl

@[simp] lemma updateFootsteps_isRolling (ops : MathOps) (s : CState)
    (lf rf : Option FootObs) (delta : ℚ) :
    (updateFootsteps ops s lf rf delta).1.isRolling = s.isRolling := by
  simp only [updateFootsteps]
  rcases lf with - | o1 <;> rcases rf with - | o2 <;> split_ifs <;> rfl

@[simp] lemma updateFootsteps_isCrouching (ops : MathOps) (s : CState)
    (lf rf : Option FootObs) (delta : ℚ) :
    (updateFootsteps ops s lf rf delta).1.isCrouching = s.isCrouching := by
  simp only [updateFootsteps]
  rcases lf with - | o1 <;> rcases rf with - | o2 <;> split_ifs <;> rfl

@[simp] lemma updateFootsteps_crouchTransitioning (ops : MathOps) (s : CState)
    (lf rf : Option FootObs) (delta : ℚ) :
    (updateFootsteps ops s lf rf delta).1.crouchTransitioning = s.crouchTransitioning := by
  simp only [updateFootsteps]
  rcases lf with - | o1 <;> rcases rf with - | o2 <;> split_ifs <;> rfl

@[simp] lemma updateFootsteps_ceilingClearanceTimer (ops : MathOps) (s : CState)
    (lf rf : Option FootObs) (delta : ℚ) :
    (updateFootsteps ops s lf rf delta).1.ceilingClearanceTimer = s.ceilingClearanceTimer := by
  simp only [updateFootsteps]
  rcases lf with - | o1 <;> rcases rf with - | o2 <;> split_ifs <;> rfl

@[simp] lemma updateFootsteps_rollDirection (ops : MathOps) (s : CState)
    (lf rf : Option FootObs) (delta : ℚ) :
    (updateFootsteps ops s lf rf delta).1.rollDirection = s.rollDirection := by
  simp only [updateFootsteps]
  rcases lf with - | o1 <;> rcases rf with - | o2 <;> split_ifs <;> rfl

@[simp] lemma updateFootsteps_rollSpeed (ops : MathOps) (s : CState)
    (lf rf : Option FootObs) (delta : ℚ) :
    (updateFootsteps ops s lf rf delta).1.rollSpeed = s.rollSpeed := by
  simp only [updateFootsteps]
  rcases lf with - | o1 <;> rcases rf with - | o2 <;> split_ifs <;> rfl

@[simp] lemma updateFootsteps_characterRotationTarget (ops : MathOps) (s : CState)
    (lf rf : Option FootObs) (delta : ℚ) :
    (updateFootsteps ops s lf rf delta).1.characterRotationTarget = s.characterRotationTarget := by
  simp only [updateFootsteps]
  rcases lf with - | o1 <;> rcases rf with - | o2 <;> split_ifs <;> rfl

@[simp] lemma updateFootsteps_rotationTarget (ops : MathOps) (s : CState)
    (lf rf : Option FootObs) (delta : ℚ) :
    (updateFootsteps ops s lf rf delta).1.rotationTarget = s.rotationTarget := by
  simp only [updateFootsteps]
  rcases lf with - | o1 <;> rcases rf with - | o2 <;> split_ifs <;> rfl

@[simp] lemma updateFootsteps_jumpPressed (ops : MathOps) (s : CState)
    (lf rf : Option FootObs) (delta : ℚ) :
    (updateFootsteps ops s lf rf delta).1.jumpPressed = s.jumpPressed := by
  simp only [updateFootsteps]
  rcases lf with - | o1 <;> rcases rf with - | o2 <;> split_ifs <;> rfl

@[simp] lemma updateFootsteps_rollPressed (ops : MathOps) (s : CState)
    (lf rf : Option FootObs) (delta : ℚ) :
    (updateFootsteps ops s lf rf delta).1.rollPressed = s.rollPressed := by
  simp only [updateFootsteps]
  rcases lf with - | o1 <;> rcases rf with - | o2 <;> split_ifs <;> rfl

@[simp] lemma updateFootsteps_currentAnimation (ops : MathOps) (s : CState)
    (lf rf : Option FootObs) (delta : ℚ) :
    (updateFootsteps ops s lf rf delta).1.currentAnimation = s.currentAnimation := by
  simp only [updateFootsteps]
  rcases lf with - | o1 <;> rcases rf with - | o2 <;> split_ifs <;> rfl

@[simp] lemma updateFootsteps_animationChangeCooldown (ops : MathOps) (s : CState)
    (lf rf : Option FootObs) (delta : ℚ) :
    (updateFootsteps ops s lf rf delta).1.animationChangeCooldown = s.animationChangeCooldown := by
  simp only [updateFootsteps]
  rcases lf with - | o1 <;> rcases rf with - | o2 <;> split_ifs <;> rfl

end CharacterController
namespace CharacterController

lemma landingPhase_fields (grounded : Bool) (f : Frame) :
    (landingPhase grounded f).s.isRolling = f.s.isRolling ∧
    (landingPhase grounded f).s.rollDirection = f.s.rollDirection ∧
    (landingPhase grounded f).s.rollSpeed = f.s.rollSpeed ∧
    (landingPhase grounded f).s.jumpPressed = f.s.jumpPressed ∧
    (landingPhase grounded f).s.rollPressed = f.s.rollPressed ∧
    (landingPhase grounded f).s.isCrouching = f.s.isCrouching ∧
    (landingPhase grounded f).s.crouchTransitioning = f.s.crouchTransitioning ∧
    (landingPhase grounded f).s.wasGrounded = f.s.wasGrounded ∧
    (landingPhase grounded f).s.isAttacking = f.s.isAttacking ∧
    (landingPhase grounded f).s.combatMode = f.s.combatMode ∧
    (landingPhase grounded f).s.currentCapsuleHalfHeight = f.s.currentCapsuleHalfHeight ∧
    (landingPhase grounded f).s.rotationTarget = f.s.rotationTarget ∧
    (landingPhase grounded f).s.characterRotationTarget = f.s.characterRotationTarget ∧
    (landingPhase grounded f).s.ceilingClearanceTimer = f.s.ceilingClearanceTimer ∧
    (landingPhase grounded f).vel.y = f.vel.y := by
  unfold landingPhase; split_ifs <;> simp [apply_ite]

@[simp] lemma landingPhase_s_isRolling (grounded : Bool) (f : Frame) :
    (landingPhase grounded f).s.isRolling = f.s.isRolling :=
  (landingPhase_fields grounded f).1

@[simp] lemma landingPhase_s_rollDirection (grounded : Bool) (f : Frame) :
    (landingPhase grounded f).s.rollDirection = f.s.rollDirection :=
  (landingPhase_fields grounded f).2.1

@[simp] lemma landingPhase_s_rollSpeed (grounded : Bool) (f : Frame) :
    (landingPhase grounded f).s.rollSpeed = f.s.rollSpeed :=
  (landingPhase_fields grounded f).2.2.1

@[simp] lemma landingPhase_s_jumpPressed (grounded : Bool) (f : Frame) :
    (landingPhase grounded f).s.jumpPressed = f.s.jumpPressed :=
  (landingPhase_fields grounded f).2.2.2.1

@[simp] lemma landingPhase_s_rollPressed (grounded : Bool) (f : Frame) :
    (landingPhase grounded f).s.rollPressed = f.s.rollPressed :=
  (landingPhase_fields grounded f).2.2.2.2.1

@[simp] lemma landingPhase_s_isCrouching (grounded : Bool) (f : Frame) :
    (landingPhase grounded f).s.isCrouching = f.s.isCrouching :=
  (landingPhase_fields grounded f).2.2.2.2.2.1

@[simp] lemma landingPhase_s_crouchTransitioning (grounded : Bool) (f : Frame) :
    (landingPhase grounded f).s.crouchTransitioning = f.s.crouchTransitioning :=
  (landingPhase_fields grounded f).2.2.2.2.2.2.1

@[simp] lemma landingPhase_s_wasGrounded (grounded : Bool) (f : Frame) :
    (landingPhase grounded f).s.wasGrounded = f.s.wasGrounded :=
  (landingPhase_fields grounded f).2.2.2.2.2.2.2.1

@[simp] lemma landingPhase_s_isAttacking (grounded : Bool) (f : Frame) :
    (landingPhase grounded f).s.isAttacking = f.s.isAttacking :=
  (landingPhase_fields grounded f).2.2.2.2.2.2.2.2.1

@[simp] lemma landingPhase_s_combatMode (grounded : Bool) (f : Frame) :
    (landingPhase grounded f).s.combatMode = f.s.combatMode :=
  (landingPhase_fields grounded f).2.2.2.2.2.2.2.2.2.1

@[simp] lemma landingPhase_s_currentCapsuleHalfHeight (grounded : Bool) (f : Frame) :
    (landingPhase grounded f).s.currentCapsuleHalfHeight = f.s.currentCapsuleHalfHeight :=
  (landingPhase_fields grounded f).2.2.2.2.2.2.2.2.2.2.1

@[simp] lemma landingPhase_s_rotationTarget (grounded : Bool) (f : Frame) :
    (landingPhase grounded f).s.rotationTarget = f.s.rotationTarget :=
  (landingPhase_fields grounded f).2.2.2.2.2.2.2.2.2.2.2.1

@[simp] lemma landingPhase_s_characterRotationTarget (grounded : Bool) (f : Frame) :
    (landingPhase grounded f).s.characterRotationTarget = f.s.characterRotationTarget :=
  (landingPhase_fields grounded f).2.2.2.2.2.2.2.2.2.2.2.2.1

@[simp] lemma landingPhase_s_ceilingClearanceTimer (grounded : Bool) (f : Frame) :
    (landingPhase grounded f).s.ceilingClearanceTimer = f.s.ceilingClearanceTimer :=
  (landingPhase_fields grounded f).2.2.2.2.2.2.2.2.2.2.2.2.2.1

@[simp] lemma landingPhase_vel_y (grounded : Bool) (f : Frame) :
    (landingPhase grounded f).vel.y = f.vel.y :=
  (landingPhase_fields grounded f).2.2.2.2.2.2.2.2.2.2.2.2.2.2

lemma rollPhase_fields (ops : MathOps) (keys : Keys) (grounded shouldBeCrouched : Bool) (f : Frame) :
    (rollPhase ops keys grounded shouldBeCrouched f).s.jumpPressed = f.s.jumpPressed ∧
    (rollPhase ops keys grounded shouldBeCrouched f).s.isCrouching = f.s.isCrouching ∧
    (rollPhase ops keys grounded shouldBeCrouched f).s.crouchTransitioning = f.s.crouchTransitioning ∧
    (rollPhase ops keys grounded shouldBeCrouched f).s.wasGrounded = f.s.wasGrounded ∧
    (rollPhase ops keys grounded shouldBeCrouched f).s.isAttacking = f.s.isAttacking ∧
    (rollPhase ops keys grounded shouldBeCrouched f).s.combatMode = f.s.combatMode ∧
    (rollPhase ops keys grounded shouldBeCrouched f).s.rotationTarget = f.s.rotationTarget ∧
    (rollPhase ops keys grounded shouldBeCrouched f).s.characterRotationTarget = f.s.characterRotationTarget ∧
    (rollPhase ops keys grounded shouldBeCrouched f).s.ceilingClearanceTimer = f.s.ceilingClearanceTimer ∧
    (rollPhase ops keys grounded shouldBeCrouched f).vel.y = f.vel.y := by
  unfold rollPhase; split_ifs <;> simp [apply_ite]

@[simp] lemma rollPhase_s_jumpPressed (ops : MathOps) (keys : Keys) (grounded shouldBeCrouched : Bool) (f : Frame) :
    (rollPhase ops keys grounded shouldBeCrouched f).s.jumpPressed = f.s.jumpPressed :=
  (rollPhase_fields ops keys grounded shouldBeCrouched f).1

@[simp] lemma rollPhase_s_isCrouching (ops : MathOps) (keys : Keys) (grounded shouldBeCrouched : Bool) (f : Frame) :
    (rollPhase ops keys grounded shouldBeCrouched f).s.isCrouching = f.s.isCrouching :=
  (rollPhase_fields ops keys grounded shouldBeCrouched f).2.1

@[simp] lemma rollPhase_s_crouchTransitioning (ops : MathOps) (keys : Keys) (grounded shouldBeCrouched : Bool) (f : Frame) :
    (rollPhase ops keys grounded shouldBeCrouched f).s.crouchTransitioning = f.s.crouchTransitioning :=
  (rollPhase_fields ops keys grounded shouldBeCrouched f).2.2.1

@[simp] lemma rollPhase_s_wasGrounded (ops : MathOps) (keys : Keys) (grounded shouldBeCrouched : Bool) (f : Frame) :
    (rollPhase ops keys grounded shouldBeCrouched f).s.wasGrounded = f.s.wasGrounded :=
  (rollPhase_fields ops keys grounded shouldBeCrouched f).2.2.2.1

@[simp] lemma rollPhase_s_isAttacking (ops : MathOps) (keys : Keys) (grounded shouldBeCrouched : Bool) (f : Frame) :
    (rollPhase ops keys grounded shouldBeCrouched f).s.isAttacking = f.s.isAttacking :=
  (rollPhase_fields ops keys grounded shouldBeCrouched f).2.2.2.2.1

@[simp] lemma rollPhase_s_combatMode (ops : MathOps) (keys : Keys) (grounded shouldBeCrouched : Bool) (f : Frame) :
    (rollPhase ops keys grounded shouldBeCrouched f).s.combatMode = f.s.combatMode :=
  (rollPhase_fields ops keys grounded shouldBeCrouched f).2.2.2.2.2.1

@[simp] lemma rollPhase_s_rotationTarget (ops : MathOps) (keys : Keys) (grounded shouldBeCrouched : Bool) (f : Frame) :
    (rollPhase ops keys grounded shouldBeCrouched f).s.rotationTarget = f.s.rotationTarget :=
  (rollPhase_fields ops keys grounded shouldBeCrouched f).2.2.2.2.2.2.1

@[simp] lemma rollPhase_s_characterRotationTarget (ops : MathOps) (keys : Keys) (grounded shouldBeCrouched : Bool) (f : Frame) :
    (rollPhase ops keys grounded shouldBeCrouched f).s.characterRotationTarget = f.s.characterRotationTarget :=
  (rollPhase_fields ops keys grounded shouldBeCrouched f).2.2.2.2.2.2.2.1

@[simp] lemma rollPhase_s_ceilingClearanceTimer (ops : MathOps) (keys : Keys) (grounded shouldBeCrouched : Bool) (f : Frame) :
    (rollPhase ops keys grounded shouldBeCrouched f).s.ceilingClearanceTimer = f.s.ceilingClearanceTimer :=
  (rollPhase_fields ops keys grounded shouldBeCrouched f).2.2.2.2.2.2.2.2.1

@[simp] lemma rollPhase_vel_y (ops : MathOps) (keys : Keys) (grounded shouldBeCrouched : Bool) (f : Frame) :
    (rollPhase ops keys grounded shouldBeCrouched f).vel.y = f.vel.y :=
  (rollPhase_fields ops keys grounded shouldBeCrouched f).2.2.2.2.2.2.2.2.2

lemma fallingPhase_fields (grounded shouldBeCrouched : Bool) (f : Frame) :
    (fallingPhase grounded shouldBeCrouched f).s.isRolling = f.s.isRolling ∧
    (fallingPhase grounded shouldBeCrouched f).s.rollDirection = f.s.rollDirection ∧
    (fallingPhase grounded shouldBeCrouched f).s.rollSpeed = f.s.rollSpeed ∧
    (fallingPhase grounded shouldBeCrouched f).s.jumpPressed = f.s.jumpPressed ∧
    (fallingPhase grounded shouldBeCrouched f).s.rollPressed = f.s.rollPressed ∧
    (fallingPhase grounded shouldBeCrouched f).s.isCrouching = f.s.isCrouching ∧
    (fallingPhase grounded shouldBeCrouched f).s.crouchTransitioning = f.s.crouchTransitioning ∧
    (fallingPhase grounded shouldBeCrouched f).s.wasGrounded = f.s.wasGrounded ∧
    (fallingPhase grounded shouldBeCrouched f).s.isAttacking = f.s.isAttacking ∧
    (fallingPhase grounded shouldBeCrouched f).s.combatMode = f.s.combatMode ∧
    (fallingPhase grounded shouldBeCrouched f).s.currentCapsuleHalfHeight = f.s.currentCapsuleHalfHeight ∧
    (fallingPhase grounded shouldBeCrouched f).s.rotationTarget = f.s.rotationTarget ∧
    (fallingPhase grounded shouldBeCrouched f).s.characterRotationTarget = f.s.characterRotationTarget ∧
    (fallingPhase grounded shouldBeCrouched f).s.ceilingClearanceTimer = f.s.ceilingClearanceTimer ∧
    (fallingPhase grounded shouldBeCrouched f).vel = f.vel ∧
    (fallingPhase grounded shouldBeCrouched f).sched = f.sched := by
  unfold fallingPhase; split_ifs <;> simp [apply_ite]

@[simp] lemma fallingPhase_s_isRolling (grounded shouldBeCrouched : Bool) (f : Frame) :
    (fallingPhase grounded shouldBeCrouched f).s.isRolling = f.s.isRolling :=
  (fallingPhase_fields grounded shouldBeCrouched f).1

@[simp] lemma fallingPhase_s_rollDirection (grounded shouldBeCrouched : Bool) (f : Frame) :
    (fallingPhase grounded shouldBeCrouched f).s.rollDirection = f.s.rollDirection :=
  (fallingPhase_fields grounded shouldBeCrouched f).2.1

@[simp] lemma fallingPhase_s_rollSpeed (grounded shouldBeCrouched : Bool) (f : Frame) :
    (fallingPhase grounded shouldBeCrouched f).s.rollSpeed = f.s.rollSpeed :=
  (fallingPhase_fields grounded shouldBeCrouched f).2.2.1

@[simp] lemma fallingPhase_s_jumpPressed (grounded shouldBeCrouched : Bool) (f : Frame) :
    (fallingPhase grounded shouldBeCrouched f).s.jumpPressed = f.s.jumpPressed :=
  (fallingPhase_fields grounded shouldBeCrouched f).2.2.2.1

@[simp] lemma fallingPhase_s_rollPressed (grounded shouldBeCrouched : Bool) (f : Frame) :
    (fallingPhase grounded shouldBeCrouched f).s.rollPressed = f.s.rollPressed :=
  (fallingPhase_fields grounded shouldBeCrouched f).2.2.2.2.1

@[simp] lemma fallingPhase_s_isCrouching (grounded shouldBeCrouched : Bool) (f : Frame) :
    (fallingPhase grounded shouldBeCrouched f).s.isCrouching = f.s.isCrouching :=
  (fallingPhase_fields grounded shouldBeCrouched f).2.2.2.2.2.1

@[simp] lemma fallingPhase_s_crouchTransitioning (grounded shouldBeCrouched : Bool) (f : Frame) :
    (fallingPhase grounded shouldBeCrouched f).s.crouchTransitioning = f.s.crouchTransitioning :=
  (fallingPhase_fields grounded shouldBeCrouched f).2.2.2.2.2.2.1

@[simp] lemma fallingPhase_s_wasGrounded (grounded shouldBeCrouched : Bool) (f : Frame) :
    (fallingPhase grounded shouldBeCrouched f).s.wasGrounded = f.s.wasGrounded :=
  (fallingPhase_fields grounded shouldBeCrouched f).2.2.2.2.2.2.2.1

@[simp] lemma fallingPhase_s_isAttacking (grounded shouldBeCrouched : Bool) (f : Frame) :
    (fallingPhase grounded shouldBeCrouched f).s.isAttacking = f.s.isAttacking :=
  (fallingPhase_fields grounded shouldBeCrouched f).2.2.2.2.2.2.2.2.1

@[simp] lemma fallingPhase_s_combatMode (grounded shouldBeCrouched : Bool) (f : Frame) :
    (fallingPhase grounded shouldBeCrouched f).s.combatMode = f.s.combatMode :=
  (fallingPhase_fields grounded shouldBeCrouched f).2.2.2.2.2.2.2.2.2.1

@[simp] lemma fallingPhase_s_currentCapsuleHalfHeight (grounded shouldBeCrouched : Bool) (f : Frame) :
    (fallingPhase grounded shouldBeCrouched f).s.currentCapsuleHalfHeight = f.s.currentCapsuleHalfHeight :=
  (fallingPhase_fields grounded shouldBeCrouched f).2.2.2.2.2.2.2.2.2.2.1

@[simp] lemma fallingPhase_s_rotationTarget (grounded shouldBeCrouched : Bool) (f : Frame) :
    (fallingPhase grounded shouldBeCrouched f).s.rotationTarget = f.s.rotationTarget :=
  (fallingPhase_fields grounded shouldBeCrouched f).2.2.2.2.2.2.2.2.2.2.2.1

@[simp] lemma fallingPhase_s_characterRotationTarget (grounded shouldBeCrouched : Bool) (f : Frame) :
    (fallingPhase grounded shouldBeCrouched f).s.characterRotationTarget = f.s.characterRotationTarget :=
  (fallingPhase_fields grounded shouldBeCrouched f).2.2.2.2.2.2.2.2.2.2.2.2.1

@[simp] lemma fallingPhase_s_ceilingClearanceTimer (grounded shouldBeCrouched : Bool) (f : Frame) :
    (fallingPhase grounded shouldBeCrouched f).s.ceilingClearanceTimer = f.s.ceilingClearanceTimer :=
  (fallingPhase_fields grounded shouldBeCrouched f).2.2.2.2.2.2.2.2.2.2.2.2.2.1

@[simp] lemma fallingPhase_vel (grounded shouldBeCrouched : Bool) (f : Frame) :
    (fallingPhase grounded shouldBeCrouched f).vel = f.vel :=
  (fallingPhase_fields grounded shouldBeCrouched f).2.2.2.2.2.2.2.2.2.2.2.2.2.2.1

@[simp] lemma fallingPhase_sched (grounded shouldBeCrouched : Bool) (f : Frame) :
    (fallingPhase grounded shouldBeCrouched f).sched = f.sched :=
  (fallingPhase_fields grounded shouldBeCrouched f).2.2.2.2.2.2.2.2.2.2.2.2.2.2.2

lemma dancePhase_fields (keys : Keys) (f : Frame) :
    (dancePhase keys f).s.isRolling = f.s.isRolling ∧
    (dancePhase keys f).s.rollDirection = f.s.rollDirection ∧
    (dancePhase keys f).s.rollSpeed = f.s.rollSpeed ∧
    (dancePhase keys f).s.jumpPhase = f.s.jumpPhase ∧
    (dancePhase keys f).s.jumpPressed = f.s.jumpPressed ∧
    (dancePhase keys f).s.rollPressed = f.s.rollPressed ∧
    (dancePhase keys f).s.isCrouching = f.s.isCrouching ∧
    (dancePhase keys f).s.crouchTransitioning = f.s.crouchTransitioning ∧
    (dancePhase keys f).s.wasGrounded = f.s.wasGrounded ∧
    (dancePhase keys f).s.isAttacking = f.s.isAttacking ∧
    (dancePhase keys f).s.combatMode = f.s.combatMode ∧
    (dancePhase keys f).s.currentCapsuleHalfHeight = f.s.currentCapsuleHalfHeight ∧
    (dancePhase keys f).s.rotationTarget = f.s.rotationTarget ∧
    (dancePhase keys f).s.characterRotationTarget = f.s.characterRotationTarget ∧
    (dancePhase keys f).s.ceilingClearanceTimer = f.s.ceilingClearanceTimer ∧
    (dancePhase keys f).vel = f.vel ∧
    (dancePhase keys f).sched = f.sched := by
  unfold dancePhase; split_ifs <;> simp [apply_ite]

@[simp] lemma dancePhase_s_isRolling (keys : Keys) (f : Frame) :
    (dancePhase keys f).s.isRolling = f.s.isRolling :=
  (dancePhase_fields keys f).1

@[simp] lemma dancePhase_s_rollDirection (keys : Keys) (f : Frame) :
    (dancePhase keys f).s.rollDirection = f.s.rollDirection :=
  (dancePhase_fields keys f).2.1

@[simp] lemma dancePhase_s_rollSpeed (keys : Keys) (f : Frame) :
    (dancePhase keys f).s.rollSpeed = f.s.rollSpeed :=
  (dancePhase_fields keys f).2.2.1

@[simp] lemma dancePhase_s_jumpPhase (keys : Keys) (f : Frame) :
    (dancePhase keys f).s.jumpPhase = f.s.jumpPhase :=
  (dancePhase_fields keys f).2.2.2.1

@[simp] lemma dancePhase_s_jumpPressed (keys : Keys) (f : Frame) :
    (dancePhase keys f).s.jumpPressed = f.s.jumpPressed :=
  (dancePhase_fields keys f).2.2.2.2.1

@[simp] lemma dancePhase_s_rollPressed (keys : Keys) (f : Frame) :
    (dancePhase keys f).s.rollPressed = f.s.rollPressed :=
  (dancePhase_fields keys f).2.2.2.2.2.1

@[simp] lemma dancePhase_s_isCrouching (keys : Keys) (f : Frame) :
    (dancePhase keys f).s.isCrouching = f.s.isCrouching :=
  (dancePhase_fields keys f).2.2.2.2.2.2.1

@[simp] lemma dancePhase_s_crouchTransitioning (keys : Keys) (f : Frame) :
    (dancePhase keys f).s.crouchTransitioning = f.s.crouchTransitioning :=
  (dancePhase_fields keys f).2.2.2.2.2.2.2.1

@[simp] lemma dancePhase_s_wasGrounded (keys : Keys) (f : Frame) :
    (dancePhase keys f).s.wasGrounded = f.s.wasGrounded :=
  (dancePhase_fields keys f).2.2.2.2.2.2.2.2.1

@[simp] lemma dancePhase_s_isAttacking (keys : Keys) (f : Frame) :
    (dancePhase keys f).s.isAttacking = f.s.isAttacking :=
  (dancePhase_fields keys f).2.2.2.2.2.2.2.2.2.1

@[simp] lemma dancePhase_s_combatMode (keys : Keys) (f : Frame) :
    (dancePhase keys f).s.combatMode = f.s.combatMode :=
  (dancePhase_fields keys f).2.2.2.2.2.2.2.2.2.2.1

@[simp] lemma dancePhase_s_currentCapsuleHalfHeight (keys : Keys) (f : Frame) :
    (dancePhase keys f).s.currentCapsuleHalfHeight = f.s.currentCapsuleHalfHeight :=
  (dancePhase_fields keys f).2.2.2.2.2.2.2.2.2.2.2.1

@[simp] lemma dancePhase_s_rotationTarget (keys : Keys) (f : Frame) :
    (dancePhase keys f).s.rotationTarget = f.s.rotationTarget :=
  (dancePhase_fields keys f).2.2.2.2.2.2.2.2.2.2.2.2.1

@[simp] lemma dancePhase_s_characterRotationTarget (keys : Keys) (f : Frame) :
    (dancePhase keys f).s.characterRotationTarget = f.s.characterRotationTarget :=
  (dancePhase_fields keys f).2.2.2.2.2.2.2.2.2.2.2.2.2.1

@[simp] lemma dancePhase_s_ceilingClearanceTimer (keys : Keys) (f : Frame) :
    (dancePhase keys f).s.ceilingClearanceTimer = f.s.ceilingClearanceTimer :=
  (dancePhase_fields keys f).2.2.2.2.2.2.2.2.2.2.2.2.2.2.1

@[simp] lemma dancePhase_vel (keys : Keys) (f : Frame) :
    (dancePhase keys f).vel = f.vel :=
  (dancePhase_fields keys f).2.2.2.2.2.2.2.2.2.2.2.2.2.2.2.1

@[simp] lemma dancePhase_sched (keys : Keys) (f : Frame) :
    (dancePhase keys f).sched = f.sched :=
  (dancePhase_fields keys f).2.2.2.2.2.2.2.2.2.2.2.2.2.2.2.2

lemma crouchSwitchPhase_fields (shouldBeCrouched : Bool) (f : Frame) :
    (crouchSwitchPhase shouldBeCrouched f).s.isRolling = f.s.isRolling ∧
    (crouchSwitchPhase shouldBeCrouched f).s.rollDirection = f.s.rollDirection ∧
    (crouchSwitchPhase shouldBeCrouched f).s.rollSpeed = f.s.rollSpeed ∧
    (crouchSwitchPhase shouldBeCrouched f).s.jumpPressed = f.s.jumpPressed ∧
    (crouchSwitchPhase shouldBeCrouched f).s.rollPressed = f.s.rollPressed ∧
    (crouchSwitchPhase shouldBeCrouched f).s.wasGrounded = f.s.wasGrounded ∧
    (crouchSwitchPhase shouldBeCrouched f).s.isAttacking = f.s.isAttacking ∧
    (crouchSwitchPhase shouldBeCrouched f).s.combatMode = f.s.combatMode ∧
    (crouchSwitchPhase shouldBeCrouched f).s.rotationTarget = f.s.rotationTarget ∧
    (crouchSwitchPhase shouldBeCrouched f).s.characterRotationTarget = f.s.characterRotationTarget ∧
    (crouchSwitchPhase shouldBeCrouched f).s.ceilingClearanceTimer = f.s.ceilingClearanceTimer ∧
    (crouchSwitchPhase shouldBeCrouched f).vel = f.vel := by
  unfold crouchSwitchPhase; split_ifs <;> simp [apply_ite]

@[simp] lemma crouchSwitchPhase_s_isRolling (shouldBeCrouched : Bool) (f : Frame) :
    (crouchSwitchPhase shouldBeCrouched f).s.isRolling = f.s.isRolling :=
  (crouchSwitchPhase_fields shouldBeCrouched f).1

@[simp] lemma crouchSwitchPhase_s_rollDirection (shouldBeCrouched : Bool) (f : Frame) :
    (crouchSwitchPhase shouldBeCrouched f).s.rollDirection = f.s.rollDirection :=
  (crouchSwitchPhase_fields shouldBeCrouched f).2.1

@[simp] lemma crouchSwitchPhase_s_rollSpeed (shouldBeCrouched : Bool) (f : Frame) :
    (crouchSwitchPhase shouldBeCrouched f).s.rollSpeed = f.s.rollSpeed :=
  (crouchSwitchPhase_fields shouldBeCrouched f).2.2.1

@[simp] lemma crouchSwitchPhase_s_jumpPressed (shouldBeCrouched : Bool) (f : Frame) :
    (crouchSwitchPhase shouldBeCrouched f).s.jumpPressed = f.s.jumpPressed :=
  (crouchSwitchPhase_fields shouldBeCrouched f).2.2.2.1

@[simp] lemma crouchSwitchPhase_s_rollPressed (shouldBeCrouched : Bool) (f : Frame) :
    (crouchSwitchPhase shouldBeCrouched f).s.rollPressed = f.s.rollPressed :=
  (crouchSwitchPhase_fields shouldBeCrouched f).2.2.2.2.1

@[simp] lemma crouchSwitchPhase_s_wasGrounded (shouldBeCrouched : Bool) (f : Frame) :
    (crouchSwitchPhase shouldBeCrouched f).s.wasGrounded = f.s.wasGrounded :=
  (crouchSwitchPhase_fields shouldBeCrouched f).2.2.2.2.2.1

@[simp] lemma crouchSwitchPhase_s_isAttacking (shouldBeCrouched : Bool) (f : Frame) :
    (crouchSwitchPhase shouldBeCrouched f).s.isAttacking = f.s.isAttacking :=
  (crouchSwitchPhase_fields shouldBeCrouched f).2.2.2.2.2.2.1

@[simp] lemma crouchSwitchPhase_s_combatMode (shouldBeCrouched : Bool) (f : Frame) :
    (crouchSwitchPhase shouldBeCrouched f).s.combatMode = f.s.combatMode :=
  (crouchSwitchPhase_fields shouldBeCrouched f).2.2.2.2.2.2.2.1

@[simp] lemma crouchSwitchPhase_s_rotationTarget (shouldBeCrouched : Bool) (f : Frame) :
    (crouchSwitchPhase shouldBeCrouched f).s.rotationTarget = f.s.rotationTarget :=
  (crouchSwitchPhase_fields shouldBeCrouched f).2.2.2.2.2.2.2.2.1

@[simp] lemma crouchSwitchPhase_s_characterRotationTarget (shouldBeCrouched : Bool) (f : Frame) :
    (crouchSwitchPhase shouldBeCrouched f).s.characterRotationTarget = f.s.characterRotationTarget :=
  (crouchSwitchPhase_fields shouldBeCrouched f).2.2.2.2.2.2.2.2.2.1

@[simp] lemma crouchSwitchPhase_s_ceilingClearanceTimer (shouldBeCrouched : Bool) (f : Frame) :
    (crouchSwitchPhase shouldBeCrouched f).s.ceilingClearanceTimer = f.s.ceilingClearanceTimer :=
  (crouchSwitchPhase_fields shouldBeCrouched f).2.2.2.2.2.2.2.2.2.2.1

@[simp] lemma crouchSwitchPhase_vel (shouldBeCrouched : Bool) (f : Frame) :
    (crouchSwitchPhase shouldBeCrouched f).vel = f.vel :=
  (crouchSwitchPhase_fields shouldBeCrouched f).2.2.2.2.2.2.2.2.2.2.2


@[simp] lemma jumpTrigger_s_isRolling (keys : Keys) (grounded : Bool) (s : CState)
    (vel : Vec3) (sched : List Sched) (wi : Option (ℚ × ℚ)) :
    (jumpTrigger keys grounded s vel sched wi).1.isRolling = s.isRolling := by
  unfold jumpTrigger; split_ifs <;> simp

@[simp] lemma jumpTrigger_s_rollDirection (keys : Keys) (grounded : Bool) (s : CState)
    (vel : Vec3) (sched : List Sched) (wi : Option (ℚ × ℚ)) :
    (jumpTrigger keys grounded s vel sched wi).1.rollDirection = s.rollDirection := by
  unfold jumpTrigger; split_ifs <;> simp

@[simp] lemma jumpTrigger_s_rollSpeed (keys : Keys) (grounded : Bool) (s : CState)
    (vel : Vec3) (sched : List Sched) (wi : Option (ℚ × ℚ)) :
    (jumpTrigger keys grounded s vel sched wi).1.rollSpeed = s.rollSpeed := by
  unfold jumpTrigger; split_ifs <;> simp

@[simp] lemma jumpTrigger_s_isCrouching (keys : Keys) (grounded : Bool) (s : CState)
    (vel : Vec3) (sched : List Sched) (wi : Option (ℚ × ℚ)) :
    (jumpTrigger keys grounded s vel sched wi).1.isCrouching = s.isCrouching := by
  unfold jumpTrigger; split_ifs <;> simp

@[simp] lemma jumpTrigger_s_crouchTransitioning (keys : Keys) (grounded : Bool) (s : CState)
    (vel : Vec3) (sched : List Sched) (wi : Option (ℚ × ℚ)) :
    (jumpTrigger keys grounded s vel sched wi).1.crouchTransitioning = s.crouchTransitioning := by
  unfold jumpTrigger; split_ifs <;> simp

@[simp] lemma jumpTrigger_s_wasGrounded (keys : Keys) (grounded : Bool) (s : CState)
    (vel : Vec3) (sched : List Sched) (wi : Option (ℚ × ℚ)) :
    (jumpTrigger keys grounded s vel sched wi).1.wasGrounded = s.wasGrounded := by
  unfold jumpTrigger; split_ifs <;> simp

@[simp] lemma jumpTrigger_s_isAttacking (keys : Keys) (grounded : Bool) (s : CState)
    (vel : Vec3) (sched : List Sched) (wi : Option (ℚ × ℚ)) :
    (jumpTrigger keys grounded s vel sched wi).1.isAttacking = s.isAttacking := by
  unfold jumpTrigger; split_ifs <;> simp

@[simp] lemma jumpTrigger_s_combatMode (keys : Keys) (grounded : Bool) (s : CState)
    (vel : Vec3) (sched : List Sched) (wi : Option (ℚ × ℚ)) :
    (jumpTrigger keys grounded s vel sched wi).1.combatMode = s.combatMode := by
  unfold jumpTrigger; split_ifs <;> simp

@[simp] lemma jumpTrigger_s_currentCapsuleHalfHeight (keys : Keys) (grounded : Bool) (s : CState)
    (vel : Vec3) (sched : List Sched) (wi : Option (ℚ × ℚ)) :
    (jumpTrigger keys grounded s vel sched wi).1.currentCapsuleHalfHeight = s.currentCapsuleHalfHeight := by
  unfold jumpTrigger; split_ifs <;> simp

@[simp] lemma jumpTrigger_s_ceilingClearanceTimer (keys : Keys) (grounded : Bool) (s : CState)
    (vel : Vec3) (sched : List Sched) (wi : Option (ℚ × ℚ)) :
    (jumpTrigger keys grounded s vel sched wi).1.ceilingClearanceTimer = s.ceilingClearanceTimer := by
  unfold jumpTrigger; split_ifs <;> simp

@[simp] lemma jumpTrigger_s_rotationTarget (keys : Keys) (grounded : Bool) (s : CState)
    (vel : Vec3) (sched : List Sched) (wi : Option (ℚ × ℚ)) :
    (jumpTrigger keys grounded s vel sched wi).1.rotationTarget = s.rotationTarget := by
  unfold jumpTrigger; split_ifs <;> simp

@[simp] lemma jumpTrigger_s_characterRotationTarget (keys : Keys) (grounded : Bool) (s : CState)
    (vel : Vec3) (sched : List Sched) (wi : Option (ℚ × ℚ)) :
    (jumpTrigger keys grounded s vel sched wi).1.characterRotationTarget = s.characterRotationTarget := by
  unfold jumpTrigger; split_ifs <;> simp

@[simp] lemma jumpTrigger_s_rollPressed (keys : Keys) (grounded : Bool) (s : CState)
    (vel : Vec3) (sched : List Sched) (wi : Option (ℚ × ℚ)) :
    (jumpTrigger keys grounded s vel sched wi).1.rollPressed = s.rollPressed := by
  unfold jumpTrigger; split_ifs <;> simp

@[simp] lemma movingAnims_isRolling (keys : Keys) (grounded shouldBeCrouched wbm : Bool)
    (speed : ℚ) (s : CState) :
    (movingAnims keys grounded shouldBeCrouched wbm speed s).isRolling = s.isRolling := by
  unfold movingAnims; split_ifs <;> simp

@[simp] lemma idleAnims_isRolling (keys : Keys) (grounded shouldBeCrouched : Bool) (s : CState) :
    (idleAnims keys grounded shouldBeCrouched s).isRolling = s.isRolling := by
  unfold idleAnims; split_ifs <;> simp

@[simp] lemma movingAnims_rollDirection (keys : Keys) (grounded shouldBeCrouched wbm : Bool)
    (speed : ℚ) (s : CState) :
    (movingAnims keys grounded shouldBeCrouched wbm speed s).rollDirection = s.rollDirection := by
  unfold movingAnims; split_ifs <;> simp

@[simp] lemma idleAnims_rollDirection (keys : Keys) (grounded shouldBeCrouched : Bool) (s : CState) :
    (idleAnims keys grounded shouldBeCrouched s).rollDirection = s.rollDirection := by
  unfold idleAnims; split_ifs <;> simp

@[simp] lemma movingAnims_rollSpeed (keys : Keys) (grounded shouldBeCrouched wbm : Bool)
    (speed : ℚ) (s : CState) :
    (movingAnims keys grounded shouldBeCrouched wbm speed s).rollSpeed = s.rollSpeed := by
  unfold movingAnims; split_ifs <;> simp

@[simp] lemma idleAnims_rollSpeed (keys : Keys) (grounded shouldBeCrouched : Bool) (s : CState) :
    (idleAnims keys grounded shouldBeCrouched s).rollSpeed = s.rollSpeed := by
  unfold idleAnims; split_ifs <;> simp

@[simp] lemma movingAnims_jumpPhase (keys : Keys) (grounded shouldBeCrouched wbm : Bool)
    (speed : ℚ) (s : CState) :
    (movingAnims keys grounded shouldBeCrouched wbm speed s).jumpPhase = s.jumpPhase := by
  unfold movingAnims; split_ifs <;> simp

@[simp] lemma idleAnims_jumpPhase (keys : Keys) (grounded shouldBeCrouched : Bool) (s : CState) :
    (idleAnims keys grounded shouldBeCrouched s).jumpPhase = s.jumpPhase := by
  unfold idleAnims; split_ifs <;> simp

@[simp] lemma movingAnims_jumpPressed (keys : Keys) (grounded shouldBeCrouched wbm : Bool)
    (speed : ℚ) (s : CState) :
    (movingAnims keys grounded shouldBeCrouched wbm speed s).jumpPressed = s.jumpPressed := by
  unfold movingAnims; split_ifs <;> simp

@[simp] lemma idleAnims_jumpPressed (keys : Keys) (grounded shouldBeCrouched : Bool) (s : CState) :
    (idleAnims keys grounded shouldBeCrouched s).jumpPressed = s.jumpPressed := by
  unfold idleAnims; split_ifs <;> simp

@[simp] lemma movingAnims_rollPressed (keys : Keys) (grounded shouldBeCrouched wbm : Bool)
    (speed : ℚ) (s : CState) :
    (movingAnims keys grounded shouldBeCrouched wbm speed s).rollPressed = s.rollPressed := by
  unfold movingAnims; split_ifs <;> simp

@[simp] lemma idleAnims_rollPressed (keys : Keys) (grounded shouldBeCrouched : Bool) (s : CState) :
    (idleAnims keys grounded shouldBeCrouched s).rollPressed = s.rollPressed := by
  unfold idleAnims; split_ifs <;> simp

@[simp] lemma movingAnims_isCrouching (keys : Keys) (grounded shouldBeCrouched wbm : Bool)
    (speed : ℚ) (s : CState) :
    (movingAnims keys grounded shouldBeCrouched wbm speed s).isCrouching = s.isCrouching := by
  unfold movingAnims; split_ifs <;> simp

@[simp] lemma idleAnims_isCrouching (keys : Keys) (grounded shouldBeCrouched : Bool) (s : CState) :
    (idleAnims keys grounded shouldBeCrouched s).isCrouching = s.isCrouching := by
  unfold idleAnims; split_ifs <;> simp

@[simp] lemma movingAnims_crouchTransitioning (keys : Keys) (grounded shouldBeCrouched wbm : Bool)
    (speed : ℚ) (s : CState) :
    (movingAnims keys grounded shouldBeCrouched wbm speed s).crouchTransitioning = s.crouchTransitioning := by
  unfold movingAnims; split_ifs <;> simp

@[simp] lemma idleAnims_crouchTransitioning (keys : Keys) (grounded shouldBeCrouched : Bool) (s : CState) :
    (idleAnims keys grounded shouldBeCrouched s).crouchTransitioning = s.crouchTransitioning := by
  unfold idleAnims; split_ifs <;> simp

@[simp] lemma movingAnims_wasGrounded (keys : Keys) (grounded shouldBeCrouched wbm : Bool)
    (speed : ℚ) (s : CState) :
    (movingAnims keys grounded shouldBeCrouched wbm speed s).wasGrounded = s.wasGrounded := by
  unfold movingAnims; split_ifs <;> simp

@[simp] lemma idleAnims_wasGrounded (keys : Keys) (grounded shouldBeCrouched : Bool) (s : CState) :
    (idleAnims keys grounded shouldBeCrouched s).wasGrounded = s.wasGrounded := by
  unfold idleAnims; split_ifs <;> simp

@[simp] lemma movingAnims_isAttacking (keys : Keys) (grounded shouldBeCrouched wbm : Bool)
    (speed : ℚ) (s : CState) :
    (movingAnims keys grounded shouldBeCrouched wbm speed s).isAttacking = s.isAttacking := by
  unfold movingAnims; split_ifs <;> simp

@[simp] lemma idleAnims_isAttacking (keys : Keys) (grounded shouldBeCrouched : Bool) (s : CState) :
    (idleAnims keys grounded shouldBeCrouched s).isAttacking = s.isAttacking := by
  unfold idleAnims; split_ifs <;> simp

@[simp] lemma movingAnims_combatMode (keys : Keys) (grounded shouldBeCrouched wbm : Bool)
    (speed : ℚ) (s : CState) :
    (movingAnims keys grounded shouldBeCrouched wbm speed s).combatMode = s.combatMode := by
  unfold movingAnims; split_ifs <;> simp

@[simp] lemma idleAnims_combatMode (keys : Keys) (grounded shouldBeCrouched : Bool) (s : CState) :
    (idleAnims keys grounded shouldBeCrouched s).combatMode = s.combatMode := by
  unfold idleAnims; split_ifs <;> simp

@[simp] lemma movingAnims_currentCapsuleHalfHeight (keys : Keys) (grounded shouldBeCrouched wbm : Bool)
    (speed : ℚ) (s : CState) :
    (movingAnims keys grounded shouldBeCrouched wbm speed s).currentCapsuleHalfHeight = s.currentCapsuleHalfHeight := by
  unfold movingAnims; split_ifs <;> simp

@[simp] lemma idleAnims_currentCapsuleHalfHeight (keys : Keys) (grounded shouldBeCrouched : Bool) (s : CState) :
    (idleAnims keys grounded shouldBeCrouched s).currentCapsuleHalfHeight = s.currentCapsuleHalfHeight := by
  unfold idleAnims; split_ifs <;> simp

@[simp] lemma movingAnims_ceilingClearanceTimer (keys : Keys) (grounded shouldBeCrouched wbm : Bool)
    (speed : ℚ) (s : CState) :
    (movingAnims keys grounded shouldBeCrouched wbm speed s).ceilingClearanceTimer = s.ceilingClearanceTimer := by
  unfold movingAnims; split_ifs <;> simp

@[simp] lemma idleAnims_ceilingClearanceTimer (keys : Keys) (grounded shouldBeCrouched : Bool) (s : CState) :
    (idleAnims keys grounded shouldBeCrouched s).ceilingClearanceTimer = s.ceilingClearanceTimer := by
  unfold idleAnims; split_ifs <;> simp

@[simp] lemma movingAnims_rotationTarget (keys : Keys) (grounded shouldBeCrouched wbm : Bool)
    (speed : ℚ) (s : CState) :
    (movingAnims keys grounded shouldBeCrouched wbm speed s).rotationTarget = s.rotationTarget := by
  unfold movingAnims; split_ifs <;> simp

@[simp] lemma idleAnims_rotationTarget (keys : Keys) (grounded shouldBeCrouched : Bool) (s : CState) :
    (idleAnims keys grounded shouldBeCrouched s).rotationTarget = s.rotationTarget := by
  unfold idleAnims; split_ifs <;> simp

@[simp] lemma movingAnims_characterRotationTarget (keys : Keys) (grounded shouldBeCrouched wbm : Bool)
    (speed : ℚ) (s : CState) :
    (movingAnims keys grounded shouldBeCrouched wbm speed s).characterRotationTarget = s.characterRotationTarget := by
  unfold movingAnims; split_ifs <;> simp

@[simp] lemma idleAnims_characterRotationTarget (keys : Keys) (grounded shouldBeCrouched : Bool) (s : CState) :
    (idleAnims keys grounded shouldBeCrouched s).characterRotationTarget = s.characterRotationTarget := by
  unfold idleAnims; split_ifs <;> simp

@[simp] lemma movingAnims_vel (keys : Keys) (grounded shouldBeCrouched wbm : Bool)
    (speed : ℚ) (s : CState) :
    (movingAnims keys grounded shouldBeCrouched wbm speed s).vel = s.vel := by
  unfold movingAnims; split_ifs <;> simp

@[simp] lemma idleAnims_vel (keys : Keys) (grounded shouldBeCrouched : Bool) (s : CState) :
    (idleAnims keys grounded shouldBeCrouched s).vel = s.vel := by
  unfold idleAnims; split_ifs <;> simp

@[simp] lemma idleDamp_y (grounded isRolling : Bool) (vel : Vec3) :
    (idleDamp grounded isRolling vel).y = vel.y := by
  unfold idleDamp; split_ifs <;> simp

@[simp] lemma movementBranch_s_isRolling (ops : MathOps) (keys : Keys)
    (grounded shouldBeCrouched wbm : Bool) (movX movZ speed : ℚ) (f : Frame) (s : CState) :
    (movementBranch ops keys grounded shouldBeCrouched wbm movX movZ speed f s).s.isRolling
      = s.isRolling := by
  simp [movementBranch]

@[simp] lemma idleBranch_s_isRolling (keys : Keys) (grounded shouldBeCrouched : Bool)
    (f : Frame) (s : CState) :
    (idleBranch keys grounded shouldBeCrouched f s).s.isRolling = s.isRolling := by
  simp [idleBranch]

@[simp] lemma movementBranch_s_rollDirection (ops : MathOps) (keys : Keys)
    (grounded shouldBeCrouched wbm : Bool) (movX movZ speed : ℚ) (f : Frame) (s : CState) :
    (movementBranch ops keys grounded shouldBeCrouched wbm movX movZ speed f s).s.rollDirection
      = s.rollDirection := by
  simp [movementBranch]

@[simp] lemma idleBranch_s_rollDirection (keys : Keys) (grounded shouldBeCrouched : Bool)
    (f : Frame) (s : CState) :
    (idleBranch keys grounded shouldBeCrouched f s).s.rollDirection = s.rollDirection := by
  simp [idleBranch]

@[simp] lemma movementBranch_s_rollSpeed (ops : MathOps) (keys : Keys)
    (grounded shouldBeCrouched wbm : Bool) (movX movZ speed : ℚ) (f : Frame) (s : CState) :
    (movementBranch ops keys grounded shouldBeCrouched wbm movX movZ speed f s).s.rollSpeed
      = s.rollSpeed := by
  simp [movementBranch]

@[simp] lemma idleBranch_s_rollSpeed (keys : Keys) (grounded shouldBeCrouched : Bool)
    (f : Frame) (s : CState) :
    (idleBranch keys grounded shouldBeCrouched f s).s.rollSpeed = s.rollSpeed := by
  simp [idleBranch]

@[simp] lemma movementBranch_s_isCrouching (ops : MathOps) (keys : Keys)
    (grounded shouldBeCrouched wbm : Bool) (movX movZ speed : ℚ) (f : Frame) (s : CState) :
    (movementBranch ops keys grounded shouldBeCrouched wbm movX movZ speed f s).s.isCrouching
      = s.isCrouching := by
  simp [movementBranch]

@[simp] lemma idleBranch_s_isCrouching (keys : Keys) (grounded shouldBeCrouched : Bool)
    (f : Frame) (s : CState) :
    (idleBranch keys grounded shouldBeCrouched f s).s.isCrouching = s.isCrouching := by
  simp [idleBranch]

@[simp] lemma movementBranch_s_crouchTransitioning (ops : MathOps) (keys : Keys)
    (grounded shouldBeCrouched wbm : Bool) (movX movZ speed : ℚ) (f : Frame) (s : CState) :
    (movementBranch ops keys grounded shouldBeCrouched wbm movX movZ speed f s).s.crouchTransitioning
      = s.crouchTransitioning := by
  simp [movementBranch]

@[simp] lemma idleBranch_s_crouchTransitioning (keys : Keys) (grounded shouldBeCrouched : Bool)
    (f : Frame) (s : CState) :
    (idleBranch keys grounded shouldBeCrouched f s).s.crouchTransitioning = s.crouchTransitioning := by
  simp [idleBranch]

@[simp] lemma movementBranch_s_wasGrounded (ops : MathOps) (keys : Keys)
    (grounded shouldBeCrouched wbm : Bool) (movX movZ speed : ℚ) (f : Frame) (s : CState) :
    (movementBranch ops keys grounded shouldBeCrouched wbm movX movZ speed f s).s.wasGrounded
      = s.wasGrounded := by
  simp [movementBranch]

@[simp] lemma idleBranch_s_wasGrounded (keys : Keys) (grounded shouldBeCrouched : Bool)
    (f : Frame) (s : CState) :
    (idleBranch keys grounded shouldBeCrouched f s).s.wasGrounded = s.wasGrounded := by
  simp [idleBranch]

@[simp] lemma movementBranch_s_isAttacking (ops : MathOps) (keys : Keys)
    (grounded shouldBeCrouched wbm : Bool) (movX movZ speed : ℚ) (f : Frame) (s : CState) :
    (movementBranch ops keys grounded shouldBeCrouched wbm movX movZ speed f s).s.isAttacking
      = s.isAttacking := by
  simp [movementBranch]

@[simp] lemma idleBranch_s_isAttacking (keys : Keys) (grounded shouldBeCrouched : Bool)
    (f : Frame) (s : CState) :
    (idleBranch keys grounded shouldBeCrouched f s).s.isAttacking = s.isAttacking := by
  simp [idleBranch]

@[simp] lemma movementBranch_s_combatMode (ops : MathOps) (keys : Keys)
    (grounded shouldBeCrouched wbm : Bool) (movX movZ speed : ℚ) (f : Frame) (s : CState) :
    (movementBranch ops keys grounded shouldBeCrouched wbm movX movZ speed f s).s.combatMode
      = s.combatMode := by
  simp [movementBranch]

@[simp] lemma idleBranch_s_combatMode (keys : Keys) (grounded shouldBeCrouched : Bool)
    (f : Frame) (s : CState) :
    (idleBranch keys grounded shouldBeCrouched f s).s.combatMode = s.combatMode := by
  simp [idleBranch]

@[simp] lemma movementBranch_s_currentCapsuleHalfHeight (ops : MathOps) (keys : Keys)
    (grounded shouldBeCrouched wbm : Bool) (movX movZ speed : ℚ) (f : Frame) (s : CState) :
    (movementBranch ops keys grounded shouldBeCrouched wbm movX movZ speed f s).s.currentCapsuleHalfHeight
      = s.currentCapsuleHalfHeight := by
  simp [movementBranch]

@[simp] lemma idleBranch_s_currentCapsuleHalfHeight (keys : Keys) (grounded shouldBeCrouched : Bool)
    (f : Frame) (s : CState) :
    (idleBranch keys grounded shouldBeCrouched f s).s.currentCapsuleHalfHeight = s.currentCapsuleHalfHeight := by
  simp [idleBranch]

@[simp] lemma movementBranch_s_ceilingClearanceTimer (ops : MathOps) (keys : Keys)
    (grounded shouldBeCrouched wbm : Bool) (movX movZ speed : ℚ) (f : Frame) (s : CState) :
    (movementBranch ops keys grounded shouldBeCrouched wbm movX movZ speed f s).s.ceilingClearanceTimer
      = s.ceilingClearanceTimer := by
  simp [movementBranch]

@[simp] lemma idleBranch_s_ceilingClearanceTimer (keys : Keys) (grounded shouldBeCrouched : Bool)
    (f : Frame) (s : CState) :
    (idleBranch keys grounded shouldBeCrouched f s).s.ceilingClearanceTimer = s.ceilingClearanceTimer := by
  simp [idleBranch]

lemma movementPhase_fields (ops : MathOps) (keys : Keys) (grounded shouldBeCrouched : Bool) (f : Frame) :
    (movementPhase ops keys grounded shouldBeCrouched f).s.isRolling = f.s.isRolling ∧
    (movementPhase ops keys grounded shouldBeCrouched f).s.rollDirection = f.s.rollDirection ∧
    (movementPhase ops keys grounded shouldBeCrouched f).s.rollSpeed = f.s.rollSpeed ∧
    (movementPhase ops keys grounded shouldBeCrouched f).s.isCrouching = f.s.isCrouching ∧
    (movementPhase ops keys grounded shouldBeCrouched f).s.crouchTransitioning = f.s.crouchTransitioning ∧
    (movementPhase ops keys grounded shouldBeCrouched f).s.wasGrounded = f.s.wasGrounded ∧
    (movementPhase ops keys grounded shouldBeCrouched f).s.isAttacking = f.s.isAttacking ∧
    (movementPhase ops keys grounded shouldBeCrouched f).s.combatMode = f.s.combatMode ∧
    (movementPhase ops keys grounded shouldBeCrouched f).s.currentCapsuleHalfHeight = f.s.currentCapsuleHalfHeight ∧
    (movementPhase ops keys grounded shouldBeCrouched f).s.ceilingClearanceTimer = f.s.ceilingClearanceTimer := by
  simp only [movementPhase]
  split_ifs <;> simp

@[simp] lemma movementPhase_s_isRolling (ops : MathOps) (keys : Keys) (grounded shouldBeCrouched : Bool) (f : Frame) :
    (movementPhase ops keys grounded shouldBeCrouched f).s.isRolling = f.s.isRolling :=
  (movementPhase_fields ops keys grounded shouldBeCrouched f).1

@[simp] lemma movementPhase_s_rollDirection (ops : MathOps) (keys : Keys) (grounded shouldBeCrouched : Bool) (f : Frame) :
    (movementPhase ops keys grounded shouldBeCrouched f).s.rollDirection = f.s.rollDirection :=
  (movementPhase_fields ops keys grounded shouldBeCrouched f).2.1

@[simp] lemma movementPhase_s_rollSpeed (ops : MathOps) (keys : Keys) (grounded shouldBeCrouched : Bool) (f : Frame) :
    (movementPhase ops keys grounded shouldBeCrouched f).s.rollSpeed = f.s.rollSpeed :=
  (movementPhase_fields ops keys grounded shouldBeCrouched f).2.2.1

@[simp] lemma movementPhase_s_isCrouching (ops : MathOps) (keys : Keys) (grounded shouldBeCrouched : Bool) (f : Frame) :
    (movementPhase ops keys grounded shouldBeCrouched f).s.isCrouching = f.s.isCrouching :=
  (movementPhase_fields ops keys grounded shouldBeCrouched f).2.2.2.1

@[simp] lemma movementPhase_s_crouchTransitioning (ops : MathOps) (keys : Keys) (grounded shouldBeCrouched : Bool) (f : Frame) :
    (movementPhase ops keys grounded shouldBeCrouched f).s.crouchTransitioning = f.s.crouchTransitioning :=
  (movementPhase_fields ops keys grounded shouldBeCrouched f).2.2.2.2.1

@[simp] lemma movementPhase_s_wasGrounded (ops : MathOps) (keys : Keys) (grounded shouldBeCrouched : Bool) (f : Frame) :
    (movementPhase ops keys grounded shouldBeCrouched f).s.wasGrounded = f.s.wasGrounded :=
  (movementPhase_fields ops keys grounded shouldBeCrouched f).2.2.2.2.2.1

@[simp] lemma movementPhase_s_isAttacking (ops : MathOps) (keys : Keys) (grounded shouldBeCrouched : Bool) (f : Frame) :
    (movementPhase ops keys grounded shouldBeCrouched f).s.isAttacking = f.s.isAttacking :=
  (movementPhase_fields ops keys grounded shouldBeCrouched f).2.2.2.2.2.2.1

@[simp] lemma movementPhase_s_combatMode (ops : MathOps) (keys : Keys) (grounded shouldBeCrouched : Bool) (f : Frame) :
    (movementPhase ops keys grounded shouldBeCrouched f).s.combatMode = f.s.combatMode :=
  (movementPhase_fields ops keys grounded shouldBeCrouched f).2.2.2.2.2.2.2.1

@[simp] lemma movementPhase_s_currentCapsuleHalfHeight (ops : MathOps) (keys : Keys) (grounded shouldBeCrouched : Bool) (f : Frame) :
    (movementPhase ops keys grounded shouldBeCrouched f).s.currentCapsuleHalfHeight = f.s.currentCapsuleHalfHeight :=
  (movementPhase_fields ops keys grounded shouldBeCrouched f).2.2.2.2.2.2.2.2.1

@[simp] lemma movementPhase_s_ceilingClearanceTimer (ops : MathOps) (keys : Keys) (grounded shouldBeCrouched : Bool) (f : Frame) :
    (movementPhase ops keys grounded shouldBeCrouched f).s.ceilingClearanceTimer = f.s.ceilingClearanceTimer :=
  (movementPhase_fields ops keys grounded shouldBeCrouched f).2.2.2.2.2.2.2.2.2

@[simp] lemma wasGroundedPhase_def (grounded : Bool) (f : Frame) :
    wasGroundedPhase grounded f = { f with s := { f.s with wasGrounded := grounded } } := rfl

@[simp] lemma rollOverridePhase_s (ops : MathOps) (grounded : Bool) (f : Frame) :
    (rollOverridePhase ops grounded f).s = f.s := by
  unfold rollOverridePhase; split_ifs <;> rfl

@[simp] lemma rollOverridePhase_sched (ops : MathOps) (grounded : Bool) (f : Frame) :
    (rollOverridePhase ops grounded f).sched = f.sched := by
  unfold rollOverridePhase; split_ifs <;> rfl

@[simp] lemma rollOverridePhase_vel_y (ops : MathOps) (grounded : Bool) (f : Frame) :
    (rollOverridePhase ops grounded f).vel.y = f.vel.y := by
  unfold rollOverridePhase; split_ifs <;> rfl

end CharacterController

/-! ## Phase behaviour lemmas -/

namespace CharacterController

/-- A standing character with no crouch key never gets
`shouldBeCrouched = true` (the clearance check is skipped entirely). -/
lemma crouchLogic_standing (timer delta : ℚ) (ray : Option RawRayHit) :
    (crouchLogic false timer false ray delta).2 = false := by
  simp [crouchLogic]
  norm_num

lemma landingPhase_fires (f : Frame) (hw : f.s.wasGrounded = false) :
    (landingPhase true f).s.jumpPhase = JumpPhase.land ∧
    (landingPhase true f).vel.x = f.vel.x * (1 / 5) ∧
    (landingPhase true f).vel.z = f.vel.z * (1 / 5) ∧
    (landingPhase true f).vel.y = f.vel.y ∧
    (landingPhase true f).sched = f.sched ++ [Sched.jumpLandRevert] := by
  simp only [landingPhase]
  rw [if_pos (by simp [hw])]
  split_ifs <;> simp

lemma landingPhase_skips (g : Bool) (f : Frame) (hw : f.s.wasGrounded = true) :
    landingPhase g f = f := by
  simp only [landingPhase]
  rw [if_neg (by simp [hw])]

lemma rollPhase_noKey (ops : MathOps) (keys : Keys) (g sbc : Bool) (f : Frame)
    (h : keys.roll = false) :
    rollPhase ops keys g sbc f = { f with s := { f.s with rollPressed := false } } := by
  simp only [rollPhase]
  rw [if_neg (by simp [h]), if_pos (by simp [h])]

lemma rollPhase_rollLock_of_rolling (ops : MathOps) (keys : Keys) (g sbc : Bool) (f : Frame)
    (h : f.s.isRolling = true) :
    (rollPhase ops keys g sbc f).s.isRolling = true ∧
    (rollPhase ops keys g sbc f).s.rollDirection = f.s.rollDirection ∧
    (rollPhase ops keys g sbc f).s.rollSpeed = f.s.rollSpeed := by
  simp only [rollPhase]
  rw [if_neg (by simp [h])]
  split_ifs <;> simp [h]

lemma fallingPhase_grounded (sbc : Bool) (f : Frame) :
    fallingPhase true sbc f = f := by
  simp only [fallingPhase]
  rw [if_neg (by simp)]

lemma dancePhase_noKey (keys : Keys) (f : Frame) (h : keys.dance = false) :
    dancePhase keys f = f := by
  simp only [dancePhase]
  rw [if_neg (by simp [h])]

lemma crouchSwitchPhase_of_eq (sbc : Bool) (f : Frame) (h : sbc = f.s.isCrouching) :
    crouchSwitchPhase sbc f = f := by
  simp only [crouchSwitchPhase]
  rw [if_neg (by simp [h])]

lemma rollOverridePhase_not (ops : MathOps) (g : Bool) (f : Frame)
    (h : f.s.isRolling = false) :
    rollOverridePhase ops g f = f := by
  simp only [rollOverridePhase]
  rw [if_neg (by simp [h])]

lemma rollOverridePhase_applies (ops : MathOps) (f : Frame) (d spd : ℚ)
    (h1 : f.s.isRolling = true) (h3 : f.s.rollDirection = some d)
    (h4 : f.s.rollSpeed = some spd) :
    (rollOverridePhase ops true f).vel.x = ops.sin d * spd ∧
    (rollOverridePhase ops true f).vel.z = ops.cos d * spd := by
  simp only [rollOverridePhase]
  rw [if_pos (by simp [h1, h3, h4])]
  simp [h3, h4]

lemma jumpTrigger_noJumpKey (keys : Keys) (g : Bool) (s : CState) (vel : Vec3)
    (sched : List Sched) (wi : Option (ℚ × ℚ)) (h : keys.jump = false) :
    jumpTrigger keys g s vel sched wi = ({ s with jumpPressed := false }, vel, sched) := by
  simp only [jumpTrigger]
  rw [if_neg (by simp [h]), if_pos (by simp [h])]

lemma jumpTrigger_noEdge_jumpPhase (keys : Keys) (g : Bool) (s : CState) (vel : Vec3)
    (sched : List Sched) (wi : Option (ℚ × ℚ))
    (hnj : ¬(g = true ∧ keys.jump = true ∧ s.jumpPressed = false)) :
    (jumpTrigger keys g s vel sched wi).1.jumpPhase = s.jumpPhase := by
  simp only [jumpTrigger]
  rw [if_neg ?hcond]
  case hcond =>
    rintro ⟨hj, hg, hp⟩
    exact hnj ⟨by simpa using hg, hj, by simpa using hp⟩
  split_ifs <;> rfl

lemma jumpTrigger_fires (keys : Keys) (s : CState) (vel : Vec3)
    (sched : List Sched) (wi : Option (ℚ × ℚ))
    (h1 : keys.jump = true) (h3 : s.jumpPressed = false) :
    (jumpTrigger keys true s vel sched wi).1.jumpPhase = JumpPhase.start ∧
    (jumpTrigger keys true s vel sched wi).2.1.y = JUMP_FORCE ∧
    (jumpTrigger keys true s vel sched wi).2.2 = sched ++ [Sched.jumpStartRevert] := by
  simp only [jumpTrigger]
  rw [if_pos ⟨h1, by simp, by simp [h3]⟩]
  rcases wi with - | iv <;> simp

lemma idleDamp_val (vel : Vec3) :
    idleDamp true false vel =
      { vel with
        x := if mathAbs (vel.x * (17 / 20)) < 1 / 100 then 0 else vel.x * (17 / 20)
        z := if mathAbs (vel.z * (17 / 20)) < 1 / 100 then 0 else vel.z * (17 / 20) } := by
  simp only [idleDamp]
  rw [if_pos (by simp)]

end CharacterController

namespace CharacterController

lemma movementBranch_jump (ops : MathOps) (keys : Keys) (sbc wbm : Bool)
    (movX movZ speed : ℚ) (f : Frame) (s : CState)
    (hj : keys.jump = true) (hp : s.jumpPressed = false) :
    (movementBranch ops keys true sbc wbm movX movZ speed f s).s.jumpPhase
        = JumpPhase.start ∧
    (movementBranch ops keys true sbc wbm movX movZ speed f s).vel.y = JUMP_FORCE ∧
    (movementBranch ops keys true sbc wbm movX movZ speed f s).sched
        = f.sched ++ [Sched.jumpStartRevert] := by
  simp only [movementBranch]
  refine ⟨?_, ?_, ?_⟩
  · simp only [movingAnims_jumpPhase]
    exact (jumpTrigger_fires _ _ _ _ _ hj (by simp [hp])).1
  · exact (jumpTrigger_fires _ _ _ _ _ hj (by simp [hp])).2.1
  · exact (jumpTrigger_fires _ _ _ _ _ hj (by simp [hp])).2.2

lemma idleBranch_jump (keys : Keys) (sbc : Bool) (f : Frame) (s : CState)
    (hj : keys.jump = true) (hp : s.jumpPressed = false) :
    (idleBranch keys true sbc f s).s.jumpPhase = JumpPhase.start ∧
    (idleBranch keys true sbc f s).vel.y = JUMP_FORCE ∧
    (idleBranch keys true sbc f s).sched = f.sched ++ [Sched.jumpStartRevert] := by
  simp only [idleBranch]
  refine ⟨?_, ?_, ?_⟩
  · simp only [idleAnims_jumpPhase]
    exact (jumpTrigger_fires _ _ _ _ _ hj hp).1
  · exact (jumpTrigger_fires _ _ _ _ _ hj hp).2.1
  · exact (jumpTrigger_fires _ _ _ _ _ hj hp).2.2

lemma movementPhase_jump (ops : MathOps) (keys : Keys) (sbc : Bool) (f : Frame)
    (hj : keys.jump = true) (hp : f.s.jumpPressed = false) :
    (movementPhase ops keys true sbc f).s.jumpPhase = JumpPhase.start ∧
    (movementPhase ops keys true sbc f).vel.y = JUMP_FORCE ∧
    (movementPhase ops keys true sbc f).sched = f.sched ++ [Sched.jumpStartRevert] := by
  simp only [movementPhase]
  by_cases htop :
      ((if keys.right then (-1 : ℚ) else if keys.left then 1 else 0) ≠ 0 ∨
        (if keys.backward then (-1 : ℚ) else if keys.forward then 1 else 0) ≠ 0)
  · rw [if_pos htop]
    exact movementBranch_jump ops keys sbc false _ _ _ f _ hj
      (by split_ifs <;> simpa using hp)
  · rw [if_neg htop]
    exact idleBranch_jump keys sbc f _ hj (by split_ifs <;> simpa using hp)

lemma movementPhase_idle (ops : MathOps) (keys : Keys) (sbc : Bool) (f : Frame)
    (hkf : keys.forward = false) (hkb : keys.backward = false)
    (hkl : keys.left = false) (hkr : keys.right = false)
    (hkj : keys.jump = false) (hr : f.s.isRolling = false) :
    (movementPhase ops keys true sbc f).vel.x =
      (if mathAbs (f.vel.x * (17 / 20)) < 1 / 100 then 0 else f.vel.x * (17 / 20)) ∧
    (movementPhase ops keys true sbc f).vel.z =
      (if mathAbs (f.vel.z * (17 / 20)) < 1 / 100 then 0 else f.vel.z * (17 / 20)) ∧
    (movementPhase ops keys true sbc f).vel.y = f.vel.y ∧
    (movementPhase ops keys true sbc f).s.jumpPhase = f.s.jumpPhase ∧
    (movementPhase ops keys true sbc f).sched = f.sched := by
  simp only [movementPhase, hkf, hkb, hkl, hkr, if_false]
  rw [if_neg (by norm_num), if_neg (by norm_num)]
  simp only [idleBranch, hr, idleDamp_val, jumpTrigger_noJumpKey _ _ _ _ _ _ hkj]
  simp

/-- The mutual-exclusion invariant of claim C10: never rolling while in an
airborne jump phase. -/
def RollJumpExclusive (s : CState) : Prop :=
  ¬(s.isRolling = true ∧
    (s.jumpPhase = JumpPhase.start ∨ s.jumpPhase = JumpPhase.loop))

lemma landingPhase_inv (g : Bool) (f : Frame) (h : RollJumpExclusive f.s) :
    RollJumpExclusive (landingPhase g f).s := by
  unfold RollJumpExclusive at h ⊢
  simp only [landingPhase]
  split_ifs <;>
    first
      | (rintro ⟨hr, hc⟩; exact h ⟨by simpa using hr, by simpa using hc⟩)
      | (rintro ⟨-, hc | hc⟩ <;> simp at hc)
      | exact h

lemma rollPhase_inv (ops : MathOps) (keys : Keys) (g sbc : Bool) (f : Frame)
    (h : RollJumpExclusive f.s) :
    RollJumpExclusive (rollPhase ops keys g sbc f).s := by
  unfold RollJumpExclusive at h ⊢
  simp only [rollPhase]
  split_ifs <;>
    first
      | (rintro ⟨hr, hc⟩; exact h ⟨by simpa using hr, by simpa using hc⟩)
      | (rintro ⟨-, hc | hc⟩ <;> simp at hc)
      | exact h

lemma fallingPhase_inv (g sbc : Bool) (f : Frame) (h : RollJumpExclusive f.s) :
    RollJumpExclusive (fallingPhase g sbc f).s := by
  unfold RollJumpExclusive at h ⊢
  simp only [fallingPhase]
  split_ifs with hc
  · rintro ⟨hr, -⟩
    have hr2 : f.s.isRolling = true := by simpa using hr
    exact absurd hr2 hc.2.2.2.2
  · exact h

lemma wasGroundedPhase_inv (g : Bool) (f : Frame) (h : RollJumpExclusive f.s) :
    RollJumpExclusive (wasGroundedPhase g f).s := by
  unfold RollJumpExclusive at h ⊢
  simp only [wasGroundedPhase_def]
  rintro ⟨hr, hc⟩
  exact h ⟨by simpa using hr, by simpa using hc⟩

lemma dancePhase_inv (keys : Keys) (f : Frame) (h : RollJumpExclusive f.s) :
    RollJumpExclusive (dancePhase keys f).s := by
  unfold RollJumpExclusive at h ⊢
  rintro ⟨hr, hc⟩
  exact h ⟨by simpa using hr, by simpa using hc⟩

lemma crouchSwitchPhase_inv (sbc : Bool) (f : Frame) (h : RollJumpExclusive f.s) :
    RollJumpExclusive (crouchSwitchPhase sbc f).s := by
  unfold RollJumpExclusive at h ⊢
  simp only [crouchSwitchPhase]
  split_ifs <;>
    first
      | (rintro ⟨hr, hc⟩; exact h ⟨by simpa using hr, by simpa using hc⟩)
      | (rintro ⟨-, hc | hc⟩ <;> simp at hc)
      | exact h

lemma movementBranch_inv (ops : MathOps) (keys : Keys) (g sbc wbm : Bool)
    (movX movZ speed : ℚ) (f : Frame) (s : CState) (h : RollJumpExclusive s)
    (hnj : ¬(g = true ∧ keys.jump = true ∧ s.jumpPressed = false)) :
    RollJumpExclusive (movementBranch ops keys g sbc wbm movX movZ speed f s).s := by
  unfold RollJumpExclusive at h ⊢
  simp only [movementBranch]
  rintro ⟨hr, hc⟩
  simp only [movingAnims_isRolling, movingAnims_jumpPhase] at hr hc
  rw [jumpTrigger_noEdge_jumpPhase _ _ _ _ _ _ (by simpa using hnj)] at hc
  exact h ⟨by simpa using hr, by simpa using hc⟩

lemma idleBranch_inv (keys : Keys) (g sbc : Bool) (f : Frame) (s : CState)
    (h : RollJumpExclusive s)
    (hnj : ¬(g = true ∧ keys.jump = true ∧ s.jumpPressed = false)) :
    RollJumpExclusive (idleBranch keys g sbc f s).s := by
  unfold RollJumpExclusive at h ⊢
  simp only [idleBranch]
  rintro ⟨hr, hc⟩
  simp only [idleAnims_isRolling, idleAnims_jumpPhase] at hr hc
  rw [jumpTrigger_noEdge_jumpPhase _ _ _ _ _ _ hnj] at hc
  exact h ⟨by simpa using hr, by simpa using hc⟩

lemma movementPhase_inv (ops : MathOps) (keys : Keys) (g sbc : Bool) (f : Frame)
    (h : RollJumpExclusive f.s)
    (hnj : ¬(g = true ∧ keys.jump = true ∧ f.s.jumpPressed = false)) :
    RollJumpExclusive (movementPhase ops keys g sbc f).s := by
  simp only [movementPhase]
  by_cases htop :
      ((if keys.right then (-1 : ℚ) else if keys.left then 1 else 0) ≠ 0 ∨
        (if keys.backward then (-1 : ℚ) else if keys.forward then 1 else 0) ≠ 0)
  · rw [if_pos htop]
    exact movementBranch_inv ops keys g sbc false _ _ _ f _
      (by unfold RollJumpExclusive at h ⊢
          split_ifs <;> (rintro ⟨hr, hc⟩; exact h ⟨by simpa using hr, by simpa using hc⟩))
      (by split_ifs <;> simpa using hnj)
  · rw [if_neg htop]
    exact idleBranch_inv keys g sbc f _
      (by unfold RollJumpExclusive at h ⊢
          split_ifs <;> (rintro ⟨hr, hc⟩; exact h ⟨by simpa using hr, by simpa using hc⟩))
      (by split_ifs <;> simpa using hnj)

lemma rollOverridePhase_inv (ops : MathOps) (g : Bool) (f : Frame)
    (h : RollJumpExclusive f.s) :
    RollJumpExclusive (rollOverridePhase ops g f).s := by
  simpa [rollOverridePhase_s] using h

end CharacterController

namespace CharacterController

@[simp] lemma sensedGrounded_footsteps (ops : MathOps) (s : CState)
    (lf rf : Option FootObs) (delta : ℚ) (env : Env) :
    sensedGrounded (updateFootsteps ops s lf rf delta).1 env = sensedGrounded s env := by
  unfold sensedGrounded
  rw [updateFootsteps_crouchTransitioning]

@[simp] lemma sensedGrounded_set (s : CState) (a b : ℚ) (env : Env) :
    sensedGrounded { s with animationChangeCooldown := a, footstepCooldown := b } env
      = sensedGrounded s env := rfl

/-- The state that the roll trigger leaves behind when it schedules the
800 ms roll-end callback: rolling, with the rolling collider profile and a
locked roll vector, not crouching. -/
def RollScheduledState (s : CState) : Prop :=
  s.isRolling = true ∧ s.currentCapsuleHalfHeight = capsuleRadius ∧
  s.rollDirection.isSome = true ∧ s.rollSpeed.isSome = true ∧ s.isCrouching = false

/-- A state in which the roll-end callback is pending but the scheduling
state has since been replaced: the player crouched mid-roll, so the
collider is the crouch profile. -/
def rollClobberState : CState :=
  { baseState with
    isRolling := true
    isCrouching := true
    currentCapsuleHalfHeight := (capsuleHeight * (1 / 2)) / 2
    rollDirection := some 0
    rollSpeed := some (RUN_SPEED * (6 / 5)) }

end CharacterController

/-! ### C9 — timed reversions and their re-checks -/

open CharacterController in
/-- C9 (counterexample): the claim says every timed reversion re-checks
that the state it intends to revert is still the state that scheduled it
and leaves the state unchanged otherwise.  The roll-end callback performs
no such check: on a state whose collider profile has since changed to the
crouch profile (not the scheduled roll configuration), it still mutates
the state — resizing the capsule to the standing profile over the live
crouch. -/
theorem timed_revert_counterexample :
    ¬RollScheduledState rollClobberState ∧
    rollEndTimeout rollClobberState ≠ rollClobberState ∧
    rollClobberState.isCrouching = true ∧
    (rollEndTimeout rollClobberState).currentCapsuleHalfHeight = capsuleHeight / 2 := by
  have hcap : (rollEndTimeout rollClobberState).currentCapsuleHalfHeight
      = capsuleHeight / 2 := by
    simp only [rollEndTimeout, updateCapsuleCollider]
    rw [if_neg (by norm_num [rollClobberState, baseState, mathAbs, capsuleHeight])]
  refine ⟨?_, ?_, rfl, hcap⟩
  · intro h
    obtain ⟨-, h2, -⟩ := h
    norm_num [rollClobberState, baseState, capsuleHeight, capsuleRadius] at h2
  · intro h
    have h2 := congrArg CState.currentCapsuleHalfHeight h
    rw [hcap] at h2
    norm_num [rollClobberState, baseState, capsuleHeight] at h2

open CharacterController in
/-- C9 (amended): the two jump-phase reversions re-check at firing time
that the phase they intend to revert is still current and leave the state
unchanged otherwise; the roll-end reversion performs *no* such check — it
unconditionally clears the rolling state and resizes the capsule to the
standing profile whenever the collider is not already there, even when
the state that scheduled it has since been replaced. -/
theorem timed_revert_guards :
    (∀ s : CState, s.jumpPhase ≠ JumpPhase.start → jumpStartTimeout s = s) ∧
    (∀ s : CState, s.jumpPhase ≠ JumpPhase.land → jumpLandTimeout s = s) ∧
    (∀ s : CState,
      (rollEndTimeout s).isRolling = false ∧
      (rollEndTimeout s).rollDirection = none ∧
      (rollEndTimeout s).rollSpeed = none ∧
      (¬(mathAbs (s.currentCapsuleHalfHeight - capsuleHeight / 2) < 1 / 100) →
        (rollEndTimeout s).currentCapsuleHalfHeight = capsuleHeight / 2)) := by
  refine ⟨?_, ?_, ?_⟩
  · intro s h
    simp only [jumpStartTimeout]
    rw [if_neg h]
  · intro s h
    simp only [jumpLandTimeout]
    rw [if_neg h]
  · intro s
    refine ⟨by simp [rollEndTimeout], by simp [rollEndTimeout], by simp [rollEndTimeout], ?_⟩
    intro h
    simp only [rollEndTimeout, updateCapsuleCollider]
    rw [if_neg (by simpa using h)]

open CharacterController in
/-- Witness for `timed_revert_guards`: the jump reversions do nothing on
the idle base state (phase `none`), and the roll-end reversion resizes a
crouch-profile state to the standing profile. -/
theorem timed_revert_guards_witness :
    jumpStartTimeout baseState = baseState ∧
    jumpLandTimeout baseState = baseState ∧
    (rollEndTimeout rollClobberState).currentCapsuleHalfHeight = capsuleHeight / 2 :=
  ⟨timed_revert_guards.1 baseState (by simp [baseState]),
    timed_revert_guards.2.1 baseState (by simp [baseState]),
    (timed_revert_guards.2.2 rollClobberState).2.2.2
      (by norm_num [rollClobberState, baseState, mathAbs, capsuleHeight])⟩

/-! ### C4 — roll velocity invariance -/

open CharacterController in
/-- C4 (amended): for every locomotion update made while a roll is active
*and the frame's ground sense is positive*, whatever movement inputs are
held, the horizontal velocity written to the rigid body is exactly the
roll vector derived from the locked roll direction and speed captured at
roll start.  (When the frame is not grounded the override of lines
1411–1424 is skipped — see the counterexample.) -/
theorem roll_velocity_grounded_invariance (ops : MathOps) (s : CState) (env : Env)
    (d spd : ℚ) (hroll : s.isRolling = true) (hg : sensedGrounded s env = true)
    (hd : s.rollDirection = some d) (hs : s.rollSpeed = some spd) :
    (update ops s env).s.vel.x = ops.sin d * spd ∧
    (update ops s env).s.vel.z = ops.cos d * spd := by
  simp only [update, sensedGrounded_footsteps, sensedGrounded_set, hg]
  refine rollOverridePhase_applies ops _ d spd ?_ ?_ ?_
  · simp only [movementPhase_s_isRolling, crouchSwitchPhase_s_isRolling,
      dancePhase_s_isRolling, wasGroundedPhase_def, fallingPhase_s_isRolling]
    refine (rollPhase_rollLock_of_rolling _ _ _ _ _ ?_).1
    simp [hroll]
  · simp only [movementPhase_s_rollDirection, crouchSwitchPhase_s_rollDirection,
      dancePhase_s_rollDirection, wasGroundedPhase_def, fallingPhase_s_rollDirection]
    rw [(rollPhase_rollLock_of_rolling _ _ _ _ _ (by simp [hroll])).2.1]
    simp [hd]
  · simp only [movementPhase_s_rollSpeed, crouchSwitchPhase_s_rollSpeed,
      dancePhase_s_rollSpeed, wasGroundedPhase_def, fallingPhase_s_rollSpeed]
    rw [(rollPhase_rollLock_of_rolling _ _ _ _ _ (by simp [hroll])).2.2]
    simp [hs]

/-! ### C10 — rolling and airborne jump phases are (mostly) exclusive -/

open CharacterController in
/-- C10 (amended): the mutual exclusion of `isRolling` and
`jumpPhase ∈ {start, loop}` is preserved by every locomotion update on
frames without a *grounded* jump-key edge (an airborne jump press is
harmless: the trigger requires `grounded`), and by every timed reversion.
(The jump trigger itself has no `isRolling` guard — see the
counterexample.) -/
theorem roll_jump_exclusion_preserved (ops : MathOps) (s : CState) (env : Env)
    (hInv : RollJumpExclusive s)
    (hnj : ¬(sensedGrounded s env = true ∧ env.keys.jump = true ∧
      s.jumpPressed = false)) :
    RollJumpExclusive (update ops s env).s ∧
    (∀ t : CState, RollJumpExclusive t → RollJumpExclusive (jumpStartTimeout t)) ∧
    (∀ t : CState, RollJumpExclusive t → RollJumpExclusive (jumpLandTimeout t)) ∧
    (∀ t : CState, RollJumpExclusive (rollEndTimeout t)) ∧
    (∀ t : CState, RollJumpExclusive t → RollJumpExclusive (crouchUnlockTimeout t)) := by
  have hfin : ∀ F : Frame, RollJumpExclusive F.s →
      RollJumpExclusive ({ F with s := { F.s with vel := F.vel } } : Frame).s := by
    intro F h
    unfold RollJumpExclusive at h ⊢
    rintro ⟨hr, hc⟩
    exact h ⟨by simpa using hr, by simpa using hc⟩
  refine ⟨?_, ?_, ?_, ?_, ?_⟩
  · simp only [update, sensedGrounded_footsteps, sensedGrounded_set]
    refine hfin _ ?_
    refine rollOverridePhase_inv _ _ _ ?_
    refine movementPhase_inv _ _ _ _ _ ?_ ?_
    · refine crouchSwitchPhase_inv _ _ ?_
      refine dancePhase_inv _ _ ?_
      refine wasGroundedPhase_inv _ _ ?_
      refine fallingPhase_inv _ _ _ ?_
      refine rollPhase_inv _ _ _ _ _ ?_
      refine landingPhase_inv _ _ ?_
      unfold RollJumpExclusive at hInv ⊢
      rintro ⟨hr, hc⟩
      exact hInv ⟨by simpa using hr, by simpa using hc⟩
    · rintro ⟨hgr, hj, hp⟩
      exact hnj ⟨hgr, hj, by simpa using hp⟩
  · intro t h
    unfold RollJumpExclusive at h ⊢
    simp only [jumpStartTimeout]
    split_ifs with hp
    · rintro ⟨hr, -⟩
      exact h ⟨by simpa using hr, Or.inl hp⟩
    · exact h
  · intro t h
    unfold RollJumpExclusive at h ⊢
    simp only [jumpLandTimeout]
    split_ifs with hp
    · rintro ⟨-, hc | hc⟩ <;> simp at hc
    · exact h
  · intro t
    unfold RollJumpExclusive
    rintro ⟨hr, -⟩
    simp [rollEndTimeout] at hr
  · intro t h
    unfold RollJumpExclusive at h ⊢
    rintro ⟨hr, hc⟩
    exact h ⟨by simpa using hr, by simpa using hc⟩


/-! ## Concrete frame inputs and further phase collapse lemmas -/

namespace CharacterController

/-- No key held. -/
def noKeys : Keys :=
  { forward := false, backward := false, left := false, right := false, run := false,
    jump := false, crouch := false, dance := false, roll := false, walkBackward := false }

/-- A grounded raycast hit well inside the 0.2 ray length. -/
def groundHit : Option RawRayHit := some ⟨some (1 / 10)⟩

/-- A mid-roll state: rolling with the locked roll vector (facing 0, speed
`RUN_SPEED * 1.2`) and the rolling collider profile. -/
def rollingState : CState :=
  { baseState with
    isRolling := true
    rollDirection := some 0
    rollSpeed := some (RUN_SPEED * (6 / 5))
    currentCapsuleHalfHeight := capsuleRadius
    currentAnimation := "roll" }

/-- An airborne frame: no raycast hits, no keys. -/
def airEnv : Env :=
  { delta := 1 / 60, keys := noKeys, groundedRay := none, ceilingRay := none,
    leftFoot := none, rightFoot := none }

/-- A grounded frame with no keys. -/
def groundEnv : Env :=
  { delta := 1 / 60, keys := noKeys, groundedRay := groundHit, ceilingRay := none,
    leftFoot := none, rightFoot := none }

/-- A grounded frame with only the jump key held. -/
def jumpEnv : Env :=
  { delta := 1 / 60, keys := { noKeys with jump := true }, groundedRay := groundHit,
    ceilingRay := none, leftFoot := none, rightFoot := none }

/-- The airborne state one frame before touchdown: falling (`jumpPhase =
loop`, airborne last frame) with horizontal velocity 1. -/
def landApproachState : CState :=
  { baseState with
    wasGrounded := false
    isGrounded := false
    vel := ⟨1, -3, 0⟩
    jumpPhase := JumpPhase.loop
    currentAnimation := "jumpLoop" }

lemma finalWrap_s_jumpPhase (f : Frame) :
    ({ f with s := { f.s with vel := f.vel } } : Frame).s.jumpPhase = f.s.jumpPhase := rfl

lemma finalWrap_s_isRolling (f : Frame) :
    ({ f with s := { f.s with vel := f.vel } } : Frame).s.isRolling = f.s.isRolling := rfl

lemma finalWrap_s_vel_x (f : Frame) :
    ({ f with s := { f.s with vel := f.vel } } : Frame).s.vel.x = f.vel.x := rfl

lemma finalWrap_s_vel_y (f : Frame) :
    ({ f with s := { f.s with vel := f.vel } } : Frame).s.vel.y = f.vel.y := rfl

lemma finalWrap_s_vel_z (f : Frame) :
    ({ f with s := { f.s with vel := f.vel } } : Frame).s.vel.z = f.vel.z := rfl

lemma finalWrap_sched (f : Frame) :
    ({ f with s := { f.s with vel := f.vel } } : Frame).sched = f.sched := rfl

lemma landingPhase_airborne (f : Frame) : landingPhase false f = f := by
  simp only [landingPhase]
  rw [if_neg (by simp)]

lemma fallingPhase_rolling (g sbc : Bool) (f : Frame) (h : f.s.isRolling = true) :
    fallingPhase g sbc f = f := by
  simp only [fallingPhase]
  rw [if_neg (by simp [h])]

lemma rollOverridePhase_airborne (ops : MathOps) (f : Frame) :
    rollOverridePhase ops false f = f := by
  simp only [rollOverridePhase]
  rw [if_neg (by simp)]

lemma movementPhase_airborne_idle (ops : MathOps) (keys : Keys) (sbc : Bool) (f : Frame)
    (hkf : keys.forward = false) (hkb : keys.backward = false)
    (hkl : keys.left = false) (hkr : keys.right = false) (hkj : keys.jump = false) :
    (movementPhase ops keys false sbc f).vel = f.vel ∧
    (movementPhase ops keys false sbc f).s.jumpPhase = f.s.jumpPhase := by
  simp only [movementPhase, hkf, hkb, hkl, hkr, if_false]
  rw [if_neg (by norm_num), if_neg (by norm_num)]
  simp only [idleBranch, jumpTrigger_noJumpKey _ _ _ _ _ _ hkj]
  constructor
  · simp [idleDamp]
  · simp [idleAnims]

/-- While rolling but airborne with no movement input, `update` leaves the
horizontal velocity untouched (the roll override of lines 1411–1424
requires `grounded`, the movement write requires `!isRolling`, and idle
damping requires `grounded`). -/
lemma update_airborne_roll (ops : MathOps) (s : CState) (env : Env)
    (hg : sensedGrounded s env = false) (hroll : s.isRolling = true)
    (hkf : env.keys.forward = false) (hkb : env.keys.backward = false)
    (hkl : env.keys.left = false) (hkrt : env.keys.right = false)
    (hkj : env.keys.jump = false) (hkroll : env.keys.roll = false)
    (hkd : env.keys.dance = false) (hkc : env.keys.crouch = false)
    (hc : s.isCrouching = false) :
    (update ops s env).s.vel.x = s.vel.x ∧ (update ops s env).s.vel.z = s.vel.z := by
  simp only [update, sensedGrounded_footsteps, sensedGrounded_set, hg]
  rw [landingPhase_airborne, rollPhase_noKey _ _ _ _ _ hkroll,
    fallingPhase_rolling _ _ _ (by simp [hroll]),
    dancePhase_noKey _ _ hkd,
    crouchSwitchPhase_of_eq _ _ (by simp [hc, hkc, crouchLogic_standing]),
    rollOverridePhase_airborne]
  rw [finalWrap_s_vel_x, finalWrap_s_vel_z,
    (movementPhase_airborne_idle ops env.keys _ _ hkf hkb hkl hkrt hkj).1]
  constructor <;> simp

/-- A grounded frame with rolling active and a jump-key edge: the roll
survives and the jump trigger still fires (it has no `isRolling` check). -/
lemma update_roll_jump (ops : MathOps) (s : CState) (env : Env)
    (hg : sensedGrounded s env = true) (hroll : s.isRolling = true)
    (hj : env.keys.jump = true) (hp : s.jumpPressed = false)
    (hw : s.wasGrounded = true) (hkroll : env.keys.roll = false)
    (hkd : env.keys.dance = false) (hkc : env.keys.crouch = false)
    (hc : s.isCrouching = false) :
    (update ops s env).s.isRolling = true ∧
    (update ops s env).s.jumpPhase = JumpPhase.start := by
  simp only [update, sensedGrounded_footsteps, sensedGrounded_set, hg]
  rw [landingPhase_skips _ _ (by simp [hw]), rollPhase_noKey _ _ _ _ _ hkroll,
    fallingPhase_grounded, dancePhase_noKey _ _ hkd,
    crouchSwitchPhase_of_eq _ _ (by simp [hc, hkc, crouchLogic_standing])]
  constructor
  · simp [hroll]
  · rw [finalWrap_s_jumpPhase]
    simp only [rollOverridePhase_s]
    exact (movementPhase_jump ops env.keys _ _ hj (by simp [hp])).1

end CharacterController

open CharacterController in
/-- C4 (counterexample): the claim says that during an active roll the
horizontal velocity written to the rigid body always equals the locked
roll vector.  The override of lines 1411–1424 requires `grounded`: on an
airborne rolling frame the written z-velocity stays at its previous value
0, while the locked roll vector's z-component is `cos(0) · 4.8 = 4.8`. -/
theorem roll_velocity_counterexample :
    rollingState.isRolling = true ∧
    rollingState.rollDirection = some 0 ∧
    rollingState.rollSpeed = some (RUN_SPEED * (6 / 5)) ∧
    sensedGrounded rollingState airEnv = false ∧
    (update demoOps rollingState airEnv).s.vel.z = 0 ∧
    demoOps.cos 0 * (RUN_SPEED * (6 / 5)) = 24 / 5 ∧ (0 : ℚ) ≠ 24 / 5 := by
  have hng : sensedGrounded rollingState airEnv = false := rfl
  refine ⟨rfl, rfl, rfl, hng, ?_, by norm_num [demoOps, RUN_SPEED], by norm_num⟩
  rw [(update_airborne_roll demoOps rollingState airEnv hng rfl rfl rfl rfl rfl rfl rfl
    rfl rfl rfl).2]
  rfl

open CharacterController in
/-- Witness for `roll_velocity_grounded_invariance`: on a grounded rolling
frame the written horizontal velocity is exactly the locked roll vector. -/
theorem roll_velocity_grounded_invariance_witness :
    rollingState.isRolling = true ∧
    sensedGrounded rollingState groundEnv = true ∧
    (update demoOps rollingState groundEnv).s.vel.x
      = demoOps.sin 0 * (RUN_SPEED * (6 / 5)) ∧
    (update demoOps rollingState groundEnv).s.vel.z
      = demoOps.cos 0 * (RUN_SPEED * (6 / 5)) := by
  have hg : sensedGrounded rollingState groundEnv = true := by
    norm_num [sensedGrounded, rollingState, baseState, groundEnv, groundHit,
      checkGroundedRapier]
  have h := roll_velocity_grounded_invariance demoOps rollingState groundEnv 0
    (RUN_SPEED * (6 / 5)) rfl hg rfl rfl
  exact ⟨rfl, hg, h.1, h.2⟩

open CharacterController in
/-- C10 (counterexample): the claim says no controller operation can
produce a state that is both rolling and in an airborne jump phase.  The
jump triggers (lines 1310–1327 and 1361–1376) check `grounded` and the
edge flag but not `isRolling`: starting from a grounded rolling state
satisfying the invariant, one update with the jump key held yields a state
that is rolling *and* in `jumpPhase = start`. -/
theorem roll_jump_exclusion_counterexample :
    RollJumpExclusive rollingState ∧
    sensedGrounded rollingState jumpEnv = true ∧
    (update demoOps rollingState jumpEnv).s.isRolling = true ∧
    (update demoOps rollingState jumpEnv).s.jumpPhase = JumpPhase.start := by
  have hg : sensedGrounded rollingState jumpEnv = true := by
    norm_num [sensedGrounded, rollingState, baseState, jumpEnv, groundHit,
      checkGroundedRapier]
  have h := update_roll_jump demoOps rollingState jumpEnv hg rfl rfl rfl rfl rfl rfl
    rfl rfl
  refine ⟨?_, hg, h.1, h.2⟩
  simp [RollJumpExclusive, rollingState, baseState]

namespace CharacterController

/-- An airborne frame with a fresh jump press: no raycast hits, only the
jump key held. -/
def jumpAirEnv : Env :=
  { delta := 1 / 60, keys := { noKeys with jump := true }, groundedRay := none,
    ceilingRay := none, leftFoot := none, rightFoot := none }

end CharacterController

open CharacterController in
/-- Witness for `roll_jump_exclusion_preserved` at two concrete frames:
the idle base state on a no-key grounded frame (no jump edge at all), and
the mid-roll state on an airborne frame with a fresh jump press (a jump
edge, but not grounded) — the invariant holds after both updates. -/
theorem roll_jump_exclusion_preserved_witness :
    (RollJumpExclusive baseState ∧
      ¬(sensedGrounded baseState groundEnv = true ∧ groundEnv.keys.jump = true ∧
        baseState.jumpPressed = false) ∧
      RollJumpExclusive (update demoOps baseState groundEnv).s) ∧
    (RollJumpExclusive rollingState ∧
      ¬(sensedGrounded rollingState jumpAirEnv = true ∧ jumpAirEnv.keys.jump = true ∧
        rollingState.jumpPressed = false) ∧
      RollJumpExclusive (update demoOps rollingState jumpAirEnv).s) :=
  have h1 : RollJumpExclusive baseState := by simp [RollJumpExclusive, baseState]
  have h2 : ¬(sensedGrounded baseState groundEnv = true ∧ groundEnv.keys.jump = true ∧
      baseState.jumpPressed = false) := by
    simp [groundEnv, noKeys]
  have h3 : RollJumpExclusive rollingState := by
    simp [RollJumpExclusive, rollingState, baseState]
  have h4 : ¬(sensedGrounded rollingState jumpAirEnv = true ∧
      jumpAirEnv.keys.jump = true ∧ rollingState.jumpPressed = false) := by
    simp [sensedGrounded, rollingState, baseState, jumpAirEnv, checkGroundedRapier]
  ⟨⟨h1, h2, (roll_jump_exclusion_preserved demoOps baseState groundEnv h1 h2).1⟩,
    ⟨h3, h4, (roll_jump_exclusion_preserved demoOps rollingState jumpAirEnv h3 h4).1⟩⟩

namespace CharacterController

/-- A grounded frame with a jump-key edge (standing, no roll/dance/crouch
keys, was grounded): the jump trigger fires — vertical velocity becomes
`JUMP_FORCE`, `jumpPhase` becomes `start`, the 200 ms revert is
scheduled. -/
lemma update_jump_frame (ops : MathOps) (s : CState) (env : Env)
    (hg : sensedGrounded s env = true) (hj : env.keys.jump = true)
    (hp : s.jumpPressed = false) (hw : s.wasGrounded = true)
    (hkroll : env.keys.roll = false) (hkd : env.keys.dance = false)
    (hkc : env.keys.crouch = false) (hc : s.isCrouching = false) :
    (update ops s env).s.jumpPhase = JumpPhase.start ∧
    (update ops s env).s.vel.y = JUMP_FORCE ∧
    Sched.jumpStartRevert ∈ (update ops s env).sched := by
  simp only [update, sensedGrounded_footsteps, sensedGrounded_set, hg]
  rw [landingPhase_skips _ _ (by simp [hw]), rollPhase_noKey _ _ _ _ _ hkroll,
    fallingPhase_grounded, dancePhase_noKey _ _ hkd,
    crouchSwitchPhase_of_eq _ _ (by simp [hc, hkc, crouchLogic_standing])]
  refine ⟨?_, ?_, ?_⟩
  · rw [finalWrap_s_jumpPhase]
    simp only [rollOverridePhase_s]
    exact (movementPhase_jump ops env.keys _ _ hj (by simp [hp])).1
  · rw [finalWrap_s_vel_y]
    simp only [rollOverridePhase_vel_y]
    exact (movementPhase_jump ops env.keys _ _ hj (by simp [hp])).2.1
  · rw [finalWrap_sched]
    simp only [rollOverridePhase_sched]
    rw [(movementPhase_jump ops env.keys _ _ hj (by simp [hp])).2.2]
    simp

/-- A touchdown frame (airborne last frame, grounded now, no keys held,
standing, not rolling): landing fires — `jumpPhase` becomes `land`, the
300 ms revert is scheduled, and the x-velocity written to the body is the
landing damping times the same-frame idle damping (with the snap-to-zero
epsilon). -/
lemma update_landing_frame (ops : MathOps) (s : CState) (env : Env)
    (hg : sensedGrounded s env = true) (hw : s.wasGrounded = false)
    (hkf : env.keys.forward = false) (hkb : env.keys.backward = false)
    (hkl : env.keys.left = false) (hkrt : env.keys.right = false)
    (hkj : env.keys.jump = false) (hkroll : env.keys.roll = false)
    (hkd : env.keys.dance = false) (hkc : env.keys.crouch = false)
    (hc : s.isCrouching = false) (hroll : s.isRolling = false) :
    (update ops s env).s.jumpPhase = JumpPhase.land ∧
    (update ops s env).s.vel.x =
      (if mathAbs (s.vel.x * (1 / 5) * (17 / 20)) < 1 / 100 then 0
       else s.vel.x * (1 / 5) * (17 / 20)) ∧
    Sched.jumpLandRevert ∈ (update ops s env).sched := by
  simp only [update, sensedGrounded_footsteps, sensedGrounded_set, hg]
  rw [rollPhase_noKey _ _ _ _ _ hkroll, fallingPhase_grounded, dancePhase_noKey _ _ hkd,
    crouchSwitchPhase_of_eq _ _ (by simp [hc, hkc, crouchLogic_standing]),
    rollOverridePhase_not _ _ _ (by simp [hroll])]
  rw [finalWrap_s_jumpPhase, finalWrap_s_vel_x, finalWrap_sched]
  rw [(movementPhase_idle ops env.keys _ _ hkf hkb hkl hkrt hkj (by simp [hroll])).2.2.2.1,
    (movementPhase_idle ops env.keys _ _ hkf hkb hkl hkrt hkj (by simp [hroll])).1,
    (movementPhase_idle ops env.keys _ _ hkf hkb hkl hkrt hkj (by simp [hroll])).2.2.2.2]
  simp only [wasGroundedPhase_def]
  rw [(landingPhase_fires _ (by simp [hw])).1, (landingPhase_fires _ (by simp [hw])).2.1,
    (landingPhase_fires _ (by simp [hw])).2.2.2.2]
  refine ⟨rfl, ?_, ?_⟩
  · simp
  · simp

end CharacterController

/-! ### C5 — the jump-and-land scenario -/

open CharacterController in
/-- C5 (amended): on a grounded frame with a jump-key edge, `update` sets
vertical velocity to `JUMP_FORCE = 6`, enters `jumpPhase = start` and
schedules the 200 ms revert, which advances `start → loop`; on a
touchdown frame with no keys held, `update` enters `jumpPhase = land` and
schedules the 300 ms revert, which clears `land → none` — but the written
horizontal velocity is the 20 % landing damping *further multiplied by the
same-frame idle damping 0.85* (net 17 %, with the 0.01 snap-to-zero
epsilon), not 20 % as claimed. -/
theorem jump_land_scenario :
    (∀ (ops : MathOps) (s : CState) (env : Env),
      sensedGrounded s env = true → env.keys.jump = true → s.jumpPressed = false →
      s.wasGrounded = true → env.keys.roll = false → env.keys.dance = false →
      env.keys.crouch = false → s.isCrouching = false →
      (update ops s env).s.jumpPhase = JumpPhase.start ∧
      (update ops s env).s.vel.y = JUMP_FORCE ∧
      Sched.jumpStartRevert ∈ (update ops s env).sched) ∧
    (∀ (ops : MathOps) (s : CState) (env : Env),
      sensedGrounded s env = true → s.wasGrounded = false →
      env.keys.forward = false → env.keys.backward = false →
      env.keys.left = false → env.keys.right = false →
      env.keys.jump = false → env.keys.roll = false →
      env.keys.dance = false → env.keys.crouch = false →
      s.isCrouching = false → s.isRolling = false →
      ¬mathAbs (s.vel.x * (1 / 5) * (17 / 20)) < 1 / 100 →
      (update ops s env).s.jumpPhase = JumpPhase.land ∧
      (update ops s env).s.vel.x = s.vel.x * (1 / 5) * (17 / 20) ∧
      Sched.jumpLandRevert ∈ (update ops s env).sched) ∧
    (∀ t : CState, t.jumpPhase = JumpPhase.start →
      (jumpStartTimeout t).jumpPhase = JumpPhase.loop) ∧
    (∀ t : CState, t.jumpPhase = JumpPhase.land →
      (jumpLandTimeout t).jumpPhase = JumpPhase.none) ∧
    schedDelayMs Sched.jumpStartRevert = 200 ∧
    schedDelayMs Sched.jumpLandRevert = 300 := by
  refine ⟨?_, ?_, ?_, ?_, rfl, rfl⟩
  · intro ops s env hg hj hp hw hkroll hkd hkc hc
    exact update_jump_frame ops s env hg hj hp hw hkroll hkd hkc hc
  · intro ops s env hg hw hkf hkb hkl hkrt hkj hkroll hkd hkc hc hroll hsnap
    obtain ⟨h1, h2, h3⟩ := update_landing_frame ops s env hg hw hkf hkb hkl hkrt hkj
      hkroll hkd hkc hc hroll
    rw [if_neg hsnap] at h2
    exact ⟨h1, h2, h3⟩
  · intro t h
    simp only [jumpStartTimeout]
    rw [if_pos h]
    simp
  · intro t h
    simp only [jumpLandTimeout]
    rw [if_pos h]

open CharacterController in
/-- C5 (counterexample): the claim says the horizontal velocity written on
the landing frame is 20 % of the pre-land value.  On a no-input touchdown
frame with pre-land x-velocity 1, the landing damping (×0.2) runs first
(line 1128), but before `setLinvel` the same frame's idle damping (×0.85,
line 1353) also applies, so the written x-velocity is 0.17, not 0.2. -/
theorem jump_land_damping_counterexample :
    landApproachState.vel.x * (1 / 5) = 1 / 5 ∧
    (update demoOps landApproachState groundEnv).s.vel.x = 17 / 100 ∧
    (17 : ℚ) / 100 ≠ 1 / 5 := by
  have hg : sensedGrounded landApproachState groundEnv = true := by
    norm_num [sensedGrounded, landApproachState, baseState, groundEnv, groundHit,
      checkGroundedRapier]
  refine ⟨by norm_num [landApproachState, baseState], ?_, by norm_num⟩
  rw [(update_landing_frame demoOps landApproachState groundEnv hg rfl rfl rfl rfl rfl
    rfl rfl rfl rfl rfl rfl).2.1]
  rw [if_neg (by norm_num [landApproachState, baseState, mathAbs])]
  norm_num [landApproachState, baseState]

open CharacterController in
/-- Witness for `jump_land_scenario`: jumping from the idle base state on
a grounded jump-edge frame, and landing from `landApproachState` on a
no-key grounded frame (written x-velocity 17 % of the pre-land value). -/
theorem jump_land_scenario_witness :
    sensedGrounded baseState jumpEnv = true ∧
    (update demoOps baseState jumpEnv).s.jumpPhase = JumpPhase.start ∧
    (update demoOps baseState jumpEnv).s.vel.y = JUMP_FORCE ∧
    Sched.jumpStartRevert ∈ (update demoOps baseState jumpEnv).sched ∧
    ¬mathAbs (landApproachState.vel.x * (1 / 5) * (17 / 20)) < 1 / 100 ∧
    (update demoOps landApproachState groundEnv).s.jumpPhase = JumpPhase.land ∧
    (update demoOps landApproachState groundEnv).s.vel.x =
      landApproachState.vel.x * (1 / 5) * (17 / 20) := by
  have hg1 : sensedGrounded baseState jumpEnv = true := by
    norm_num [sensedGrounded, baseState, jumpEnv, groundHit, checkGroundedRapier]
  have hg2 : sensedGrounded landApproachState groundEnv = true := by
    norm_num [sensedGrounded, landApproachState, baseState, groundEnv, groundHit,
      checkGroundedRapier]
  have hsnap : ¬mathAbs (landApproachState.vel.x * (1 / 5) * (17 / 20)) < 1 / 100 := by
    norm_num [landApproachState, baseState, mathAbs]
  have h1 := jump_land_scenario.1 demoOps baseState jumpEnv hg1 rfl rfl rfl rfl rfl rfl rfl
  have h2 := jump_land_scenario.2.1 demoOps landApproachState groundEnv hg2 rfl rfl rfl
    rfl rfl rfl rfl rfl rfl rfl rfl hsnap
  exact ⟨hg1, h1.1, h1.2.1, h1.2.2, hsnap, h2.1, h2.2.1⟩
